import Mathlib

/-
Verification of the RV32IMA interpreter (bus.rs / timer.rs / utils.rs / cpu.rs).

The Rust sources are shallowly embedded:
  * machine integers (u8/u16/u32/u64, i16/i32/i64) become `Nat`/`Int` with
    explicit truncation (`% 2 ^ w`) exactly where the source wraps or casts;
  * Rust operations that can panic (array indexing out of bounds, `wrapping_div`
    / `wrapping_rem` with divisor zero, shifts by an out-of-range amount,
    overflowing bare `+` on a signed type, `todo!()`, unknown-CSR `panic!`)
    are modelled as explicit failure outcomes (`Option` on the bus,
    `Cpu × Option Failure` at the instruction level);
  * `anyhow::bail!` decode errors become the `unknown*` variants of `Failure`,
    carrying exactly the data the source formats into the error message;
  * addresses in all modelled scenarios stay far below `2 ^ 32 - 3`, so the
    plain `Nat` additions used for successor byte addresses agree with u32.
State is passed explicitly; each embedded method returns the state as it is at
the method's exit, also when it exits by a panic-style failure, so that
"no mutation precedes the failure" is a provable statement, not a convention.
-/

namespace RiscV

/-- Reinterpret a `u32` bit pattern (a `Nat` below `2 ^ 32`) as an `i32` value. -/
def toI32 (n : Nat) : Int := if n < 2 ^ 31 then (n : Int) else (n : Int) - 2 ^ 32

/-- Truncate an integer to its low 32 bits, i.e. the `as u32` cast / i32 wraparound. -/
def ofI32 (i : Int) : Nat := (i % (2 ^ 32 : Int)).toNat

/-- Wrap an integer into the `i64` range, as Rust's `i64::wrapping_mul` result. -/
def wrapI64 (x : Int) : Int := (x + 2 ^ 63) % 2 ^ 64 - 2 ^ 63

/-! ## utils.rs -/

/-- Rust `ApplyByte for u32`: `(src & (!(((!0u8) as u32) << offset * 8))) | ((val as u32) << offset * 8)`. -/
def applyByte32 (src val off : Nat) : Nat :=
  (src &&& (0xFFFFFFFF ^^^ (0xFF <<< (off * 8)))) ||| (val <<< (off * 8))

/-- Rust `ApplyByte for u64`: the same byte-lane merge on a 64-bit register. -/
def applyByte64 (src val off : Nat) : Nat :=
  (src &&& (0xFFFFFFFFFFFFFFFF ^^^ (0xFF <<< (off * 8)))) ||| (val <<< (off * 8))

/-! ## timer.rs -/

/-- CLINT state: `msip` (u32), `mtimecmp` (u64), `mtime` (u64). -/
structure Clint where
  msip : Nat
  mtimecmp : Nat
  mtime : Nat
deriving DecidableEq

def Clint.new : Clint := { msip := 0, mtimecmp := 0, mtime := 0 }

/-- Rust `Clint::tick`: `mtime = mtime.wrapping_add(1); if mtime >= mtimecmp { msip |= 0x80 }`.
(The Rust method returns `Result` but never fails.) -/
def Clint.tick (c : Clint) : Clint :=
  let mtime := (c.mtime + 1) % 2 ^ 64
  if c.mtimecmp ≤ mtime then { c with mtime := mtime, msip := c.msip ||| 0x80 }
  else { c with mtime := mtime }

/-- Rust `Clint::read8`: byte windows `msip` 0x0000-0x0003, `mtimecmp` 0x4000-0x4007, `mtime` 0xBFF8-0xBFFF. -/
def Clint.read8 (c : Clint) (addr : Nat) : Nat :=
  if addr ≤ 0x0003 then (c.msip >>> (addr * 8)) % 256
  else if 0x4000 ≤ addr ∧ addr ≤ 0x4007 then (c.mtimecmp >>> ((addr - 0x4000) * 8)) % 256
  else if 0xBFF8 ≤ addr ∧ addr ≤ 0xBFFF then (c.mtime >>> ((addr - 0xBFF8) * 8)) % 256
  else 0

/-- Rust `Clint::write8`: byte-lane merge into the addressed register; any `mtimecmp` write clears `msip`. -/
def Clint.write8 (c : Clint) (addr val : Nat) : Clint :=
  if addr ≤ 0x0003 then { c with msip := applyByte32 c.msip val addr }
  else if 0x4000 ≤ addr ∧ addr ≤ 0x4007 then
    { c with mtimecmp := applyByte64 c.mtimecmp val (addr - 0x4000), msip := 0x00 }
  else if 0xBFF8 ≤ addr ∧ addr ≤ 0xBFFF then
    { c with mtime := applyByte64 c.mtime val (addr - 0xBFF8) }
  else c

/-! ## bus.rs -/

def RAM_SIZE : Nat := 0x10000

/-- Bus state: the RAM byte array (`[u8; RAM_SIZE]`, as a function) and the CLINT. -/
structure Bus where
  ram : Nat → Nat
  clint : Clint

def Bus.new : Bus := { ram := fun _ => 0, clint := Clint.new }

/-- Rust `Bus::tick` delegates to the CLINT (whose `Result` is always `Ok`). -/
def Bus.tick (b : Bus) : Bus := { b with clint := b.clint.tick }

/-- Rust `self.ram[i]`: in-bounds load, or an index-out-of-bounds panic (`none`). -/
def ramLoad (ram : Nat → Nat) (i : Nat) : Option Nat :=
  if i < RAM_SIZE then some (ram i) else none

/-- Rust `self.ram[i] = v`: in-bounds store, or an index-out-of-bounds panic (`none`). -/
def ramStore (ram : Nat → Nat) (i v : Nat) : Option (Nat → Nat) :=
  if i < RAM_SIZE then some (fun j => if j = i then v else ram j) else none

/-- Bare u32 `a + b`: overflow is a panic (`none`). -/
def u32add (a b : Nat) : Option Nat := if a + b < 2 ^ 32 then some (a + b) else none

/-- Rust `Bus::read8`: route by address range. The RAM arm indexes `ram[addr as usize]`
with the full (unsubtracted) bus address, exactly as the source does. -/
def Bus.read8 (b : Bus) (addr : Nat) : Option Nat :=
  if 0x11000000 ≤ addr ∧ addr ≤ 0x1100BFFF then some (b.clint.read8 (addr - 0x11000000))
  else if 0x80000000 ≤ addr ∧ addr ≤ 0x8000FFFF then ramLoad b.ram addr
  else some 0

/-- Rust `Bus::write8`: route by address range; the RAM arm stores at `ram[addr as usize]`. -/
def Bus.write8 (b : Bus) (addr val : Nat) : Option Bus :=
  if 0x11000000 ≤ addr ∧ addr ≤ 0x1100BFFF then
    some { b with clint := b.clint.write8 (addr - 0x11000000) val }
  else if 0x80000000 ≤ addr ∧ addr ≤ 0x8000FFFF then
    (ramStore b.ram addr val).map fun r => { b with ram := r }
  else some b

/-- Rust `Bus::read16`: two routed byte reads composed little-endian. -/
def Bus.read16 (b : Bus) (addr : Nat) : Option Nat := do
  let low ← b.read8 addr
  let a1 ← u32add addr 1
  let high ← b.read8 a1
  some (low ||| (high <<< 8))

/-- Rust `Bus::read32`: four routed byte reads composed little-endian. -/
def Bus.read32 (b : Bus) (addr : Nat) : Option Nat := do
  let lowest ← b.read8 addr
  let a1 ← u32add addr 1
  let lower ← b.read8 a1
  let a2 ← u32add addr 2
  let higher ← b.read8 a2
  let a3 ← u32add addr 3
  let highest ← b.read8 a3
  some (lowest ||| (lower <<< 8) ||| (higher <<< 16) ||| (highest <<< 24))

/-- Rust `Bus::write16`: stores the two bytes directly into `ram[addr]`, `ram[addr + 1]`
with no address routing, exactly as the source does. -/
def Bus.write16 (b : Bus) (addr val : Nat) : Option Bus := do
  let r1 ← ramStore b.ram addr (val % 256)
  let r2 ← ramStore r1 (addr + 1) ((val >>> 8) % 256)
  some { b with ram := r2 }

/-- Rust `Bus::write32`: stores the four bytes directly into `ram[addr] .. ram[addr + 3]`
with no address routing, exactly as the source does. -/
def Bus.write32 (b : Bus) (addr val : Nat) : Option Bus := do
  let r1 ← ramStore b.ram addr (val % 256)
  let r2 ← ramStore r1 (addr + 1) ((val >>> 8) % 256)
  let r3 ← ramStore r2 (addr + 2) ((val >>> 16) % 256)
  let r4 ← ramStore r3 (addr + 3) ((val >>> 24) % 256)
  some { b with ram := r4 }

/-- Modelled from the spec (§4.1): the mandated decomposition of a 32-bit write into
four per-byte stores routed through the same address dispatch as `write8`, little-endian.
This is the behaviour the spec requires of `write32`; it is compared against the
source's `Bus.write32` above. -/
def Bus.write32Routed (b : Bus) (addr val : Nat) : Option Bus := do
  let b1 ← b.write8 addr (val % 256)
  let b2 ← b1.write8 (addr + 1) ((val >>> 8) % 256)
  let b3 ← b2.write8 (addr + 2) ((val >>> 16) % 256)
  let b4 ← b3.write8 (addr + 3) ((val >>> 24) % 256)
  some b4

/-! ## cpu.rs: decoder -/

/-- Privilege modes (only Machine is exercised). -/
inductive Mode where
  | user
  | supervisor
  | reserved
  | machine
deriving DecidableEq

/-- Rust `mode as u32`. -/
def Mode.toNat : Mode → Nat
  | .user => 0
  | .supervisor => 1
  | .reserved => 2
  | .machine => 3

/-- The decoded-instruction record (`struct Inst`). `imm12` is the `i16` field,
`imm32` the `i32` field. -/
structure Inst where
  funct7 : Nat
  funct5 : Nat
  rs2 : Nat
  rs1 : Nat
  funct3 : Nat
  rd : Nat
  imm12 : Int
  imm32 : Int
deriving DecidableEq

/-- Rust `IntoI12 for u16`: keep the low 12 bits and sign-extend from bit 11
(`result |= 0xF000` then reinterpret as `i16`). -/
def into_i12 (x : Nat) : Int :=
  let r := x &&& 0x0FFF
  if 0 < x &&& 0x0800 then ((r ||| 0xF000 : Nat) : Int) - 65536 else (r : Int)

/-- Rust `Inst::from_r`. -/
def Inst.from_r (ir : Nat) : Inst :=
  { funct7 := (ir >>> 25) &&& 0b1111111
    funct5 := (ir >>> 27) &&& 0b11111
    rs2 := (ir >>> 20) &&& 0b11111
    rs1 := (ir >>> 15) &&& 0b11111
    funct3 := (ir >>> 12) &&& 0b111
    rd := (ir >>> 7) &&& 0b11111
    imm12 := 0
    imm32 := 0 }

/-- Rust `Inst::from_i`. -/
def Inst.from_i (ir : Nat) : Inst :=
  { imm12 := into_i12 ((ir >>> 20) &&& 0b111111111111)
    rs1 := (ir >>> 15) &&& 0b11111
    funct3 := (ir >>> 12) &&& 0b111
    rd := (ir >>> 7) &&& 0b11111
    funct7 := (ir >>> 25) &&& 0b1111111
    funct5 := (ir >>> 27) &&& 0b11111
    rs2 := 0
    imm32 := 0 }

/-- Rust `Inst::from_s`. The source ORs the low and high immediate fields together
without shifting the high part by 5; embedded as written. -/
def Inst.from_s (ir : Nat) : Inst :=
  { rs2 := (ir >>> 20) &&& 0b11111
    rs1 := (ir >>> 15) &&& 0b11111
    funct3 := (ir >>> 12) &&& 0b111
    imm12 := into_i12 (((ir >>> 7) &&& 0b11111) ||| ((ir >>> 25) &&& 0b1111111))
    funct7 := 0
    funct5 := 0
    rd := 0
    imm32 := 0 }

/-- Rust `Inst::from_u`. -/
def Inst.from_u (ir : Nat) : Inst :=
  { rd := (ir >>> 7) &&& 0b11111
    funct7 := 0
    funct5 := 0
    rs2 := 0
    rs1 := 0
    funct3 := 0
    imm12 := 0
    imm32 := toI32 (((ir >>> 12) <<< 12) % 2 ^ 32) }

/-- Rust `Inst::from_b`. Each `|=` line truncates its u32 expression to u16 (`% 65536`);
the `imm[12]` line shifts left by 31, so its u16 truncation is always 0. -/
def Inst.from_b (ir : Nat) : Inst :=
  let imm12 : Nat :=
    ((((ir >>> 8) &&& 0b1111) <<< 1) % 65536) |||
    ((((ir >>> 25) &&& 0b111111) <<< 5) % 65536) |||
    ((((ir >>> 7) &&& 0b1) <<< 11) % 65536) |||
    ((((ir >>> 31) &&& 0b1) <<< 31) % 65536)
  { rs2 := (ir >>> 20) &&& 0b11111
    rs1 := (ir >>> 15) &&& 0b11111
    funct3 := (ir >>> 12) &&& 0b111
    imm12 := into_i12 imm12
    funct7 := 0
    funct5 := 0
    rd := 0
    imm32 := 0 }

/-- Rust `Inst::from_j`. -/
def Inst.from_j (ir : Nat) : Inst :=
  let imm32 : Nat :=
    (((ir >>> 21) &&& 0b1111111111) <<< 1) |||
    (((ir >>> 20) &&& 0b1) <<< 11) |||
    (((ir >>> 12) &&& 0b11111111) <<< 12) |||
    (((ir >>> 31) &&& 0b1) <<< 20)
  { rd := (ir >>> 7) &&& 0b11111
    funct7 := 0
    funct5 := 0
    rs2 := 0
    rs1 := 0
    funct3 := 0
    imm12 := 0
    imm32 := toI32 imm32 }

/-- Failure outcomes of one decode-dispatch-execute step. The `unknown*` variants
are the recoverable `anyhow::bail!` decode errors, carrying exactly the data the
source formats into the message (`unknownInstruction` carries the raw word, the
others the decoded `Inst`); the `panic*` variants are Rust panics. -/
inductive Failure where
  | unknownInstruction (ir : Nat)
  | unknownOpImm (inst : Inst)
  | unknownBranch (inst : Inst)
  | unknownLoad (inst : Inst)
  | unknownStore (inst : Inst)
  | unknownMiscMem (inst : Inst)
  | unknownSystem (inst : Inst)
  | unknownOp (inst : Inst)
  | unknownAmo (inst : Inst)
  | panicIndexOutOfBounds
  | panicOverflow
  | panicShiftOverflow
  | panicDivideByZero
  | panicTodo
  | panicUnknownCsr (no : Nat)
deriving DecidableEq

/-- Returns `true` on the recoverable `bail!` decode errors, `false` on panics. -/
def Failure.isDecodeFailure : Failure → Bool
  | .unknownInstruction _ => true
  | .unknownOpImm _ => true
  | .unknownBranch _ => true
  | .unknownLoad _ => true
  | .unknownStore _ => true
  | .unknownMiscMem _ => true
  | .unknownSystem _ => true
  | .unknownOp _ => true
  | .unknownAmo _ => true
  | _ => false

/-! ## cpu.rs: state and execution

Each embedded method returns `Cpu × Option Failure`: the machine state at the
method's exit (also on a failure exit) and the failure, if any. -/

/-- CPU state: register file, pc, the eight machine CSRs, modes, and the bus. -/
structure Cpu where
  xr : Nat → Nat
  pc : Nat
  mstatus : Nat
  mie : Nat
  mtvec : Nat
  mscratch : Nat
  mepc : Nat
  mcause : Nat
  mtval : Nat
  mip : Nat
  mode : Mode
  prev_mode : Mode
  bus : Bus

/-- Rust `Cpu::new`: everything zeroed, both modes Machine. -/
def Cpu.new (bus : Bus) : Cpu :=
  { xr := fun _ => 0
    pc := 0
    mstatus := 0
    mie := 0
    mtvec := 0
    mscratch := 0
    mepc := 0
    mcause := 0
    mtval := 0
    mip := 0
    mode := .machine
    prev_mode := .machine
    bus := bus }

/-- Rust `Cpu::get_x`: index 0 reads as the constant 0. -/
def Cpu.get_x (c : Cpu) (i : Nat) : Nat := if i = 0 then 0 else c.xr i

/-- Rust `Cpu::set_x`: an unguarded store into the register array (also for index 0). -/
def Cpu.set_x (c : Cpu) (i val : Nat) : Cpu :=
  { c with xr := fun j => if j = i then val else c.xr j }

/-- Rust `Cpu::get_csr`: the eight known CSR numbers; anything else panics (`none`). -/
def Cpu.get_csr (c : Cpu) (no : Nat) : Option Nat :=
  if no = 0x300 then some c.mstatus
  else if no = 0x304 then some c.mie
  else if no = 0x305 then some c.mtvec
  else if no = 0x340 then some c.mscratch
  else if no = 0x341 then some c.mepc
  else if no = 0x342 then some c.mcause
  else if no = 0x343 then some c.mtval
  else if no = 0x344 then some c.mip
  else none

/-- Rust `Cpu::set_csr`: the eight known CSR numbers; anything else panics (`none`). -/
def Cpu.set_csr (c : Cpu) (no val : Nat) : Option Cpu :=
  if no = 0x300 then some { c with mstatus := val }
  else if no = 0x304 then some { c with mie := val }
  else if no = 0x305 then some { c with mtvec := val }
  else if no = 0x340 then some { c with mscratch := val }
  else if no = 0x341 then some { c with mepc := val }
  else if no = 0x342 then some { c with mcause := val }
  else if no = 0x343 then some { c with mtval := val }
  else if no = 0x344 then some { c with mip := val }
  else none

/-- Rust `Cpu::do_interrupt`: only the Machine Timer Interrupt (bit 0x80) is serviced.
Rust precedence makes `self.mstatus & 0x08 << 4` parse as `mstatus & (0x08 << 4)`. -/
def Cpu.do_interrupt (c : Cpu) (it : Nat) : Cpu :=
  if it &&& 0x80 = 0 then c
  else
    { c with
      mtval := 0
      mepc := c.pc
      mcause := 0x80000007
      mstatus := (c.mstatus &&& (0x08 <<< 4)) ||| (c.prev_mode.toNat <<< 11)
      pc := c.mtvec
      prev_mode := .machine }

/-- Rust `Cpu::check_interrupt`: fold the CLINT `msip` into `mip`, then trap when the
global enable bit (bit 3 of `mstatus`) is set and `mie & mip` is nonzero. -/
def Cpu.check_interrupt (c : Cpu) : Cpu :=
  let c := { c with mip := c.mip ||| c.bus.clint.msip }
  if 0 < c.mstatus &&& 0b1000 then
    let it := c.mie &&& c.mip
    if 0 < it then c.do_interrupt it else c
  else c

/-- Sign-extend a byte (`as i8 as i32 as u32`). -/
def sext8 (v : Nat) : Nat :=
  let b := v % 256
  if b < 128 then b else 0xFFFFFF00 + b

/-- Sign-extend a halfword (`as i16 as i32 as u32`). -/
def sext16 (v : Nat) : Nat :=
  let h := v % 65536
  if h < 32768 then h else 0xFFFF0000 + h

/-- Rust `imm12 & 0x0FFF) as u32`: the low 12 bits of the i16 immediate. -/
def low12 (i : Int) : Nat := (i % 4096).toNat

/-- Rust `imm12 as u16` (two's-complement reinterpretation), used as the CSR number. -/
def csrNo (i : Int) : Nat := (i % 65536).toNat

/-- OP-IMM `andi`. -/
def Cpu.andi (c : Cpu) (rd rs1 : Nat) (imm12 : Int) : Cpu × Option Failure :=
  (c.set_x rd (c.get_x rs1 &&& low12 imm12), none)

/-- OP-IMM `addi`: a bare i32 `+`, so a signed overflow is a panic. -/
def Cpu.addi (c : Cpu) (rd rs1 : Nat) (imm12 : Int) : Cpu × Option Failure :=
  let s := toI32 (c.get_x rs1) + imm12
  if s < -(2 ^ 31) ∨ (2 ^ 31 : Int) ≤ s then (c, some .panicOverflow)
  else (c.set_x rd (ofI32 s), none)

/-- OP-IMM `slli`: `get_x(rs1) << imm12`; a shift amount outside 0..31 is a panic. -/
def Cpu.slli (c : Cpu) (rd rs1 : Nat) (imm12 : Int) : Cpu × Option Failure :=
  if imm12 < 0 ∨ (32 : Int) ≤ imm12 then (c, some .panicShiftOverflow)
  else (c.set_x rd ((c.get_x rs1 <<< imm12.toNat) % 2 ^ 32), none)

/-- OP-IMM `slti` (signed compare). -/
def Cpu.slti (c : Cpu) (rd rs1 : Nat) (imm12 : Int) : Cpu × Option Failure :=
  (c.set_x rd (if toI32 (c.get_x rs1) < imm12 then 1 else 0), none)

/-- OP-IMM `sltiu` (unsigned compare against the low 12 immediate bits). -/
def Cpu.sltiu (c : Cpu) (rd rs1 : Nat) (imm12 : Int) : Cpu × Option Failure :=
  (c.set_x rd (if c.get_x rs1 < low12 imm12 then 1 else 0), none)

/-- OP-IMM `xori`. -/
def Cpu.xori (c : Cpu) (rd rs1 : Nat) (imm12 : Int) : Cpu × Option Failure :=
  (c.set_x rd (c.get_x rs1 ^^^ low12 imm12), none)

/-- OP-IMM `srli`: logical right shift; a shift amount outside 0..31 is a panic. -/
def Cpu.srli (c : Cpu) (rd rs1 : Nat) (imm12 : Int) : Cpu × Option Failure :=
  if imm12 < 0 ∨ (32 : Int) ≤ imm12 then (c, some .panicShiftOverflow)
  else (c.set_x rd (c.get_x rs1 >>> imm12.toNat), none)

/-- OP-IMM `srai`: arithmetic right shift by the raw `imm12`; a shift amount
outside 0..31 is a panic. -/
def Cpu.srai (c : Cpu) (rd rs1 : Nat) (imm12 : Int) : Cpu × Option Failure :=
  if imm12 < 0 ∨ (32 : Int) ≤ imm12 then (c, some .panicShiftOverflow)
  else (c.set_x rd (ofI32 (Int.fdiv (toI32 (c.get_x rs1)) (2 ^ imm12.toNat))), none)

/-- OP-IMM `ori`. -/
def Cpu.ori (c : Cpu) (rd rs1 : Nat) (imm12 : Int) : Cpu × Option Failure :=
  (c.set_x rd (c.get_x rs1 ||| low12 imm12), none)

/-- Rust `jal`: link `pc + 4` into `rd`, then `pc += imm32` (wrapping). -/
def Cpu.jal (c : Cpu) (inst : Inst) : Cpu × Option Failure :=
  let c1 := c.set_x inst.rd ((c.pc + 4) % 2 ^ 32)
  ({ c1 with pc := ofI32 (toI32 c.pc + inst.imm32) }, none)

/-- Rust `jalr`: link `pc + 4` into `rd`, then `pc := rs1 + imm32` (wrapping). -/
def Cpu.jalr (c : Cpu) (inst : Inst) : Cpu × Option Failure :=
  let base := c.get_x inst.rs1
  let c1 := c.set_x inst.rd ((c.pc + 4) % 2 ^ 32)
  ({ c1 with pc := ofI32 (toI32 base + inst.imm32) }, none)

/-- Rust `beq`: on equality, `pc += imm12` (wrapping i32 add). -/
def Cpu.beq (c : Cpu) (rs1 rs2 : Nat) (imm12 : Int) : Cpu × Option Failure :=
  if toI32 (c.get_x rs1) = toI32 (c.get_x rs2) then
    ({ c with pc := ofI32 (toI32 c.pc + imm12) }, none)
  else (c, none)

/-- Rust `bne`. -/
def Cpu.bne (c : Cpu) (rs1 rs2 : Nat) (imm12 : Int) : Cpu × Option Failure :=
  if toI32 (c.get_x rs1) ≠ toI32 (c.get_x rs2) then
    ({ c with pc := ofI32 (toI32 c.pc + imm12) }, none)
  else (c, none)

/-- Rust `blt` (signed). -/
def Cpu.blt (c : Cpu) (rs1 rs2 : Nat) (imm12 : Int) : Cpu × Option Failure :=
  if toI32 (c.get_x rs1) < toI32 (c.get_x rs2) then
    ({ c with pc := ofI32 (toI32 c.pc + imm12) }, none)
  else (c, none)

/-- Rust `bge` (signed). -/
def Cpu.bge (c : Cpu) (rs1 rs2 : Nat) (imm12 : Int) : Cpu × Option Failure :=
  if toI32 (c.get_x rs2) ≤ toI32 (c.get_x rs1) then
    ({ c with pc := ofI32 (toI32 c.pc + imm12) }, none)
  else (c, none)

/-- Rust `bltu` (unsigned). -/
def Cpu.bltu (c : Cpu) (rs1 rs2 : Nat) (imm12 : Int) : Cpu × Option Failure :=
  if c.get_x rs1 < c.get_x rs2 then
    ({ c with pc := ofI32 (toI32 c.pc + imm12) }, none)
  else (c, none)

/-- Rust `bgeu` (unsigned). -/
def Cpu.bgeu (c : Cpu) (rs1 rs2 : Nat) (imm12 : Int) : Cpu × Option Failure :=
  if c.get_x rs2 ≤ c.get_x rs1 then
    ({ c with pc := ofI32 (toI32 c.pc + imm12) }, none)
  else (c, none)

/-- Rust `lb`: routed byte read at `rs1 + imm12` (wrapping), sign-extended. -/
def Cpu.lb (c : Cpu) (rd rs1 : Nat) (imm12 : Int) : Cpu × Option Failure :=
  match c.bus.read8 (ofI32 (toI32 (c.get_x rs1) + imm12)) with
  | none => (c, some .panicIndexOutOfBounds)
  | some v => (c.set_x rd (sext8 v), none)

/-- Rust `lh`: routed halfword read, sign-extended. -/
def Cpu.lh (c : Cpu) (rd rs1 : Nat) (imm12 : Int) : Cpu × Option Failure :=
  match c.bus.read16 (ofI32 (toI32 (c.get_x rs1) + imm12)) with
  | none => (c, some .panicIndexOutOfBounds)
  | some v => (c.set_x rd (sext16 v), none)

/-- Rust `lw`: routed word read. -/
def Cpu.lw (c : Cpu) (rd rs1 : Nat) (imm12 : Int) : Cpu × Option Failure :=
  match c.bus.read32 (ofI32 (toI32 (c.get_x rs1) + imm12)) with
  | none => (c, some .panicIndexOutOfBounds)
  | some v => (c.set_x rd v, none)

/-- Rust `lbu`: routed byte read, zero-extended. -/
def Cpu.lbu (c : Cpu) (rd rs1 : Nat) (imm12 : Int) : Cpu × Option Failure :=
  match c.bus.read8 (ofI32 (toI32 (c.get_x rs1) + imm12)) with
  | none => (c, some .panicIndexOutOfBounds)
  | some v => (c.set_x rd v, none)

/-- Rust `lhu`: routed halfword read, zero-extended. -/
def Cpu.lhu (c : Cpu) (rd rs1 : Nat) (imm12 : Int) : Cpu × Option Failure :=
  match c.bus.read16 (ofI32 (toI32 (c.get_x rs1) + imm12)) with
  | none => (c, some .panicIndexOutOfBounds)
  | some v => (c.set_x rd v, none)

/-- Rust `sb`: routed byte write of the low 8 register bits. -/
def Cpu.sb (c : Cpu) (rs1 rs2 : Nat) (imm12 : Int) : Cpu × Option Failure :=
  match c.bus.write8 (ofI32 (toI32 (c.get_x rs1) + imm12)) (c.get_x rs2 % 256) with
  | none => (c, some .panicIndexOutOfBounds)
  | some b => ({ c with bus := b }, none)

/-- Rust `sh`: unrouted halfword write of the low 16 register bits. -/
def Cpu.sh (c : Cpu) (rs1 rs2 : Nat) (imm12 : Int) : Cpu × Option Failure :=
  match c.bus.write16 (ofI32 (toI32 (c.get_x rs1) + imm12)) (c.get_x rs2 % 65536) with
  | none => (c, some .panicIndexOutOfBounds)
  | some b => ({ c with bus := b }, none)

/-- Rust `sw`: unrouted word write. -/
def Cpu.sw (c : Cpu) (rs1 rs2 : Nat) (imm12 : Int) : Cpu × Option Failure :=
  match c.bus.write32 (ofI32 (toI32 (c.get_x rs1) + imm12)) (c.get_x rs2) with
  | none => (c, some .panicIndexOutOfBounds)
  | some b => ({ c with bus := b }, none)

/-- Rust `fence` is `todo!()`: an unconditional panic. -/
def Cpu.fence (c : Cpu) (_ : Int) : Cpu × Option Failure := (c, some .panicTodo)

/-- Rust `fencei` is a no-op. -/
def Cpu.fencei (c : Cpu) : Cpu × Option Failure := (c, none)

/-- Rust `csrrw`: `rd := csr; csr := rs1` (old `rs1` value). -/
def Cpu.csrrw (c : Cpu) (rd rs1 : Nat) (imm12 : Int) : Cpu × Option Failure :=
  match c.get_csr (csrNo imm12) with
  | none => (c, some (.panicUnknownCsr (csrNo imm12)))
  | some csrVal =>
    let srcVal := c.get_x rs1
    let c1 := c.set_x rd csrVal
    match c1.set_csr (csrNo imm12) srcVal with
    | none => (c1, some (.panicUnknownCsr (csrNo imm12)))
    | some c2 => (c2, none)

/-- Rust `csrrs`: `rd := csr; csr := rs1 | csr`. -/
def Cpu.csrrs (c : Cpu) (rd rs1 : Nat) (imm12 : Int) : Cpu × Option Failure :=
  match c.get_csr (csrNo imm12) with
  | none => (c, some (.panicUnknownCsr (csrNo imm12)))
  | some csrVal =>
    let srcVal := c.get_x rs1
    let c1 := c.set_x rd csrVal
    match c1.set_csr (csrNo imm12) (srcVal ||| csrVal) with
    | none => (c1, some (.panicUnknownCsr (csrNo imm12)))
    | some c2 => (c2, none)

/-- Rust `csrrc`: `rd := csr; csr := rs1 & !csr`. -/
def Cpu.csrrc (c : Cpu) (rd rs1 : Nat) (imm12 : Int) : Cpu × Option Failure :=
  match c.get_csr (csrNo imm12) with
  | none => (c, some (.panicUnknownCsr (csrNo imm12)))
  | some csrVal =>
    let srcVal := c.get_x rs1
    let c1 := c.set_x rd csrVal
    match c1.set_csr (csrNo imm12) (srcVal &&& (0xFFFFFFFF ^^^ csrVal)) with
    | none => (c1, some (.panicUnknownCsr (csrNo imm12)))
    | some c2 => (c2, none)

/-- Rust `csrrwi`: like `csrrw` but the source operand is the `rs1` field itself. -/
def Cpu.csrrwi (c : Cpu) (rd rs1 : Nat) (imm12 : Int) : Cpu × Option Failure :=
  match c.get_csr (csrNo imm12) with
  | none => (c, some (.panicUnknownCsr (csrNo imm12)))
  | some csrVal =>
    let c1 := c.set_x rd csrVal
    match c1.set_csr (csrNo imm12) rs1 with
    | none => (c1, some (.panicUnknownCsr (csrNo imm12)))
    | some c2 => (c2, none)

/-- Rust `csrrsi`. -/
def Cpu.csrrsi (c : Cpu) (rd rs1 : Nat) (imm12 : Int) : Cpu × Option Failure :=
  match c.get_csr (csrNo imm12) with
  | none => (c, some (.panicUnknownCsr (csrNo imm12)))
  | some csrVal =>
    let c1 := c.set_x rd csrVal
    match c1.set_csr (csrNo imm12) (rs1 ||| csrVal) with
    | none => (c1, some (.panicUnknownCsr (csrNo imm12)))
    | some c2 => (c2, none)

/-- Rust `csrrci`. -/
def Cpu.csrrci (c : Cpu) (rd rs1 : Nat) (imm12 : Int) : Cpu × Option Failure :=
  match c.get_csr (csrNo imm12) with
  | none => (c, some (.panicUnknownCsr (csrNo imm12)))
  | some csrVal =>
    let c1 := c.set_x rd csrVal
    match c1.set_csr (csrNo imm12) (rs1 &&& (0xFFFFFFFF ^^^ csrVal)) with
    | none => (c1, some (.panicUnknownCsr (csrNo imm12)))
    | some c2 => (c2, none)

/-- Rust `lui`: `rd := imm32 as u32`. -/
def Cpu.lui (c : Cpu) (inst : Inst) : Cpu × Option Failure :=
  (c.set_x inst.rd (ofI32 inst.imm32), none)

/-- Rust `auipc`: `rd := pc + imm32` (wrapping). -/
def Cpu.auipc (c : Cpu) (inst : Inst) : Cpu × Option Failure :=
  (c.set_x inst.rd (ofI32 (toI32 c.pc + inst.imm32)), none)

/-- OP `add` (i32 wrapping). -/
def Cpu.add (c : Cpu) (rd rs1 rs2 : Nat) : Cpu × Option Failure :=
  (c.set_x rd (ofI32 (toI32 (c.get_x rs1) + toI32 (c.get_x rs2))), none)

/-- OP `sub` (i32 wrapping). -/
def Cpu.sub (c : Cpu) (rd rs1 rs2 : Nat) : Cpu × Option Failure :=
  (c.set_x rd (ofI32 (toI32 (c.get_x rs1) - toI32 (c.get_x rs2))), none)

/-- OP `sll`: `left << right` with the raw rs2 value; an amount >= 32 is a panic. -/
def Cpu.sll (c : Cpu) (rd rs1 rs2 : Nat) : Cpu × Option Failure :=
  if 32 ≤ c.get_x rs2 then (c, some .panicShiftOverflow)
  else (c.set_x rd ((c.get_x rs1 <<< c.get_x rs2) % 2 ^ 32), none)

/-- OP `slt` (signed compare). -/
def Cpu.slt (c : Cpu) (rd rs1 rs2 : Nat) : Cpu × Option Failure :=
  (c.set_x rd (if toI32 (c.get_x rs1) < toI32 (c.get_x rs2) then 1 else 0), none)

/-- OP `sltu` (unsigned compare). -/
def Cpu.sltu (c : Cpu) (rd rs1 rs2 : Nat) : Cpu × Option Failure :=
  (c.set_x rd (if c.get_x rs1 < c.get_x rs2 then 1 else 0), none)

/-- OP `xor`. -/
def Cpu.xor (c : Cpu) (rd rs1 rs2 : Nat) : Cpu × Option Failure :=
  (c.set_x rd (c.get_x rs1 ^^^ c.get_x rs2), none)

/-- OP `srl`: logical shift with the raw rs2 value; an amount >= 32 is a panic. -/
def Cpu.srl (c : Cpu) (rd rs1 rs2 : Nat) : Cpu × Option Failure :=
  if 32 ≤ c.get_x rs2 then (c, some .panicShiftOverflow)
  else (c.set_x rd (c.get_x rs1 >>> c.get_x rs2), none)

/-- OP `sra`: arithmetic shift with the raw rs2 value (`as i32`); an amount
that is negative as i32 or >= 32 is a panic, i.e. any rs2 value >= 32. -/
def Cpu.sra (c : Cpu) (rd rs1 rs2 : Nat) : Cpu × Option Failure :=
  if 32 ≤ c.get_x rs2 then (c, some .panicShiftOverflow)
  else (c.set_x rd (ofI32 (Int.fdiv (toI32 (c.get_x rs1)) (2 ^ c.get_x rs2))), none)

/-- OP `or`. -/
def Cpu.or (c : Cpu) (rd rs1 rs2 : Nat) : Cpu × Option Failure :=
  (c.set_x rd (c.get_x rs1 ||| c.get_x rs2), none)

/-- OP `and`. -/
def Cpu.and (c : Cpu) (rd rs1 rs2 : Nat) : Cpu × Option Failure :=
  (c.set_x rd (c.get_x rs1 &&& c.get_x rs2), none)

/-- OP `mul`: low 32 bits of the i32 wrapping product. -/
def Cpu.mul (c : Cpu) (rd rs1 rs2 : Nat) : Cpu × Option Failure :=
  (c.set_x rd (ofI32 (toI32 (c.get_x rs1) * toI32 (c.get_x rs2))), none)

/-- Rust `mulh`: the source zero-extends both u32 operands into i64
(`get_x(..) as i64`), multiplies with i64 wrapping, arithmetic-shifts by 32
and truncates; embedded as written. -/
def Cpu.mulh (c : Cpu) (rd rs1 rs2 : Nat) : Cpu × Option Failure :=
  (c.set_x rd
    (ofI32 (Int.fdiv (wrapI64 ((c.get_x rs1 : Int) * (c.get_x rs2 : Int))) (2 ^ 32))), none)

/-- Rust `mulhsu`: both operands are likewise zero-extended into i64 by the source. -/
def Cpu.mulhsu (c : Cpu) (rd rs1 rs2 : Nat) : Cpu × Option Failure :=
  (c.set_x rd
    (ofI32 (Int.fdiv (wrapI64 ((c.get_x rs1 : Int) * (c.get_x rs2 : Int))) (2 ^ 32))), none)

/-- Rust `mulhu`: high 32 bits of the u64 product. -/
def Cpu.mulhu (c : Cpu) (rd rs1 rs2 : Nat) : Cpu × Option Failure :=
  (c.set_x rd ((c.get_x rs1 * c.get_x rs2) % 2 ^ 64 >>> 32), none)

/-- Rust `div`: `i32::wrapping_div`, which panics on divisor zero and wraps only
on `INT_MIN / -1`. -/
def Cpu.div (c : Cpu) (rd rs1 rs2 : Nat) : Cpu × Option Failure :=
  let l := toI32 (c.get_x rs1)
  let r := toI32 (c.get_x rs2)
  if r = 0 then (c, some .panicDivideByZero)
  else if l = -(2 ^ 31) ∧ r = -1 then (c.set_x rd (ofI32 (-(2 ^ 31))), none)
  else (c.set_x rd (ofI32 (l.tdiv r)), none)

/-- Rust `divu`: `u32::wrapping_div`, which panics on divisor zero. -/
def Cpu.divu (c : Cpu) (rd rs1 rs2 : Nat) : Cpu × Option Failure :=
  if c.get_x rs2 = 0 then (c, some .panicDivideByZero)
  else (c.set_x rd (c.get_x rs1 / c.get_x rs2), none)

/-- Rust `rem`: `i32::wrapping_rem`, which panics on divisor zero and wraps only
on `INT_MIN % -1` (result 0). -/
def Cpu.rem (c : Cpu) (rd rs1 rs2 : Nat) : Cpu × Option Failure :=
  let l := toI32 (c.get_x rs1)
  let r := toI32 (c.get_x rs2)
  if r = 0 then (c, some .panicDivideByZero)
  else if l = -(2 ^ 31) ∧ r = -1 then (c.set_x rd 0, none)
  else (c.set_x rd (ofI32 (l.tmod r)), none)

/-- Rust `remu`: `u32::wrapping_rem`, which panics on divisor zero. -/
def Cpu.remu (c : Cpu) (rd rs1 rs2 : Nat) : Cpu × Option Failure :=
  if c.get_x rs2 = 0 then (c, some .panicDivideByZero)
  else (c.set_x rd (c.get_x rs1 % c.get_x rs2), none)

/-- AMO `lrw`: a plain word load (no reservation tracking). -/
def Cpu.lrw (c : Cpu) (rd rs1 : Nat) : Cpu × Option Failure :=
  match c.bus.read32 (c.get_x rs1) with
  | none => (c, some .panicIndexOutOfBounds)
  | some v => (c.set_x rd v, none)

/-- AMO `scw`: an unconditional store that then reports success (`rd := 0`). -/
def Cpu.scw (c : Cpu) (rd rs1 rs2 : Nat) : Cpu × Option Failure :=
  match c.bus.write32 (c.get_x rs1) (c.get_x rs2) with
  | none => (c, some .panicIndexOutOfBounds)
  | some b => (({ c with bus := b }).set_x rd 0, none)

/-- AMO `amoswapw`: `rd := mem; mem := rs2`. The register write happens before
the (unrouted) memory write, so a store panic leaves `rd` already updated. -/
def Cpu.amoswapw (c : Cpu) (rd rs1 rs2 : Nat) : Cpu × Option Failure :=
  match c.bus.read32 (c.get_x rs1) with
  | none => (c, some .panicIndexOutOfBounds)
  | some left =>
    let right := c.get_x rs2
    let c1 := c.set_x rd left
    match c1.bus.write32 (c.get_x rs1) right with
    | none => (c1, some .panicIndexOutOfBounds)
    | some b => ({ c1 with bus := b }, none)

/-- AMO `amoaddw` (i32 wrapping add). -/
def Cpu.amoaddw (c : Cpu) (rd rs1 rs2 : Nat) : Cpu × Option Failure :=
  match c.bus.read32 (c.get_x rs1) with
  | none => (c, some .panicIndexOutOfBounds)
  | some left =>
    let right := c.get_x rs2
    let c1 := c.set_x rd left
    match c1.bus.write32 (c.get_x rs1) (ofI32 (toI32 left + toI32 right)) with
    | none => (c1, some .panicIndexOutOfBounds)
    | some b => ({ c1 with bus := b }, none)

/-- AMO `amoxorw`. -/
def Cpu.amoxorw (c : Cpu) (rd rs1 rs2 : Nat) : Cpu × Option Failure :=
  match c.bus.read32 (c.get_x rs1) with
  | none => (c, some .panicIndexOutOfBounds)
  | some left =>
    let right := c.get_x rs2
    let c1 := c.set_x rd left
    match c1.bus.write32 (c.get_x rs1) (left ^^^ right) with
    | none => (c1, some .panicIndexOutOfBounds)
    | some b => ({ c1 with bus := b }, none)

/-- AMO `amoandw`. -/
def Cpu.amoandw (c : Cpu) (rd rs1 rs2 : Nat) : Cpu × Option Failure :=
  match c.bus.read32 (c.get_x rs1) with
  | none => (c, some .panicIndexOutOfBounds)
  | some left =>
    let right := c.get_x rs2
    let c1 := c.set_x rd left
    match c1.bus.write32 (c.get_x rs1) (left &&& right) with
    | none => (c1, some .panicIndexOutOfBounds)
    | some b => ({ c1 with bus := b }, none)

/-- AMO `amoorw`. -/
def Cpu.amoorw (c : Cpu) (rd rs1 rs2 : Nat) : Cpu × Option Failure :=
  match c.bus.read32 (c.get_x rs1) with
  | none => (c, some .panicIndexOutOfBounds)
  | some left =>
    let right := c.get_x rs2
    let c1 := c.set_x rd left
    match c1.bus.write32 (c.get_x rs1) (left ||| right) with
    | none => (c1, some .panicIndexOutOfBounds)
    | some b => ({ c1 with bus := b }, none)

/-- AMO `amominw` (signed min). -/
def Cpu.amominw (c : Cpu) (rd rs1 rs2 : Nat) : Cpu × Option Failure :=
  match c.bus.read32 (c.get_x rs1) with
  | none => (c, some .panicIndexOutOfBounds)
  | some left =>
    let right := c.get_x rs2
    let c1 := c.set_x rd left
    match c1.bus.write32 (c.get_x rs1) (ofI32 (min (toI32 left) (toI32 right))) with
    | none => (c1, some .panicIndexOutOfBounds)
    | some b => ({ c1 with bus := b }, none)

/-- AMO `amomaxw` (signed max). -/
def Cpu.amomaxw (c : Cpu) (rd rs1 rs2 : Nat) : Cpu × Option Failure :=
  match c.bus.read32 (c.get_x rs1) with
  | none => (c, some .panicIndexOutOfBounds)
  | some left =>
    let right := c.get_x rs2
    let c1 := c.set_x rd left
    match c1.bus.write32 (c.get_x rs1) (ofI32 (max (toI32 left) (toI32 right))) with
    | none => (c1, some .panicIndexOutOfBounds)
    | some b => ({ c1 with bus := b }, none)

/-- AMO `amominuw` (unsigned min). -/
def Cpu.amominuw (c : Cpu) (rd rs1 rs2 : Nat) : Cpu × Option Failure :=
  match c.bus.read32 (c.get_x rs1) with
  | none => (c, some .panicIndexOutOfBounds)
  | some left =>
    let right := c.get_x rs2
    let c1 := c.set_x rd left
    match c1.bus.write32 (c.get_x rs1) (min left right) with
    | none => (c1, some .panicIndexOutOfBounds)
    | some b => ({ c1 with bus := b }, none)

/-- AMO `amomaxuw` (unsigned max). -/
def Cpu.amomaxuw (c : Cpu) (rd rs1 rs2 : Nat) : Cpu × Option Failure :=
  match c.bus.read32 (c.get_x rs1) with
  | none => (c, some .panicIndexOutOfBounds)
  | some left =>
    let right := c.get_x rs2
    let c1 := c.set_x rd left
    match c1.bus.write32 (c.get_x rs1) (max left right) with
    | none => (c1, some .panicIndexOutOfBounds)
    | some b => ({ c1 with bus := b }, none)

/-- Rust `Cpu::opimm`: select by funct3 (and funct7 for the shifts; the `srai`
arm expects funct7 `0b010000`, as written in the source). -/
def Cpu.opimm (c : Cpu) (inst : Inst) : Cpu × Option Failure :=
  if inst.funct3 = 0b000 then c.addi inst.rd inst.rs1 inst.imm12
  else if inst.funct3 = 0b001 ∧ inst.funct7 = 0b000000 then c.slli inst.rd inst.rs1 inst.imm12
  else if inst.funct3 = 0b010 then c.slti inst.rd inst.rs1 inst.imm12
  else if inst.funct3 = 0b011 then c.sltiu inst.rd inst.rs1 inst.imm12
  else if inst.funct3 = 0b100 then c.xori inst.rd inst.rs1 inst.imm12
  else if inst.funct3 = 0b101 ∧ inst.funct7 = 0b000000 then c.srli inst.rd inst.rs1 inst.imm12
  else if inst.funct3 = 0b101 ∧ inst.funct7 = 0b010000 then c.srai inst.rd inst.rs1 inst.imm12
  else if inst.funct3 = 0b110 then c.ori inst.rd inst.rs1 inst.imm12
  else if inst.funct3 = 0b111 then c.andi inst.rd inst.rs1 inst.imm12
  else (c, some (.unknownOpImm inst))

/-- Rust `Cpu::branch`: select by funct3 (funct3 010 and 011 are unknown). -/
def Cpu.branch (c : Cpu) (inst : Inst) : Cpu × Option Failure :=
  if inst.funct3 = 0b000 then c.beq inst.rs1 inst.rs2 inst.imm12
  else if inst.funct3 = 0b001 then c.bne inst.rs1 inst.rs2 inst.imm12
  else if inst.funct3 = 0b100 then c.blt inst.rs1 inst.rs2 inst.imm12
  else if inst.funct3 = 0b101 then c.bge inst.rs1 inst.rs2 inst.imm12
  else if inst.funct3 = 0b110 then c.bltu inst.rs1 inst.rs2 inst.imm12
  else if inst.funct3 = 0b111 then c.bgeu inst.rs1 inst.rs2 inst.imm12
  else (c, some (.unknownBranch inst))

/-- Rust `Cpu::load`: select by funct3. -/
def Cpu.load (c : Cpu) (inst : Inst) : Cpu × Option Failure :=
  if inst.funct3 = 0b000 then c.lb inst.rd inst.rs1 inst.imm12
  else if inst.funct3 = 0b001 then c.lh inst.rd inst.rs1 inst.imm12
  else if inst.funct3 = 0b010 then c.lw inst.rd inst.rs1 inst.imm12
  else if inst.funct3 = 0b100 then c.lbu inst.rd inst.rs1 inst.imm12
  else if inst.funct3 = 0b101 then c.lhu inst.rd inst.rs1 inst.imm12
  else (c, some (.unknownLoad inst))

/-- Rust `Cpu::store`: select by funct3. -/
def Cpu.store (c : Cpu) (inst : Inst) : Cpu × Option Failure :=
  if inst.funct3 = 0b000 then c.sb inst.rs1 inst.rs2 inst.imm12
  else if inst.funct3 = 0b001 then c.sh inst.rs1 inst.rs2 inst.imm12
  else if inst.funct3 = 0b010 then c.sw inst.rs1 inst.rs2 inst.imm12
  else (c, some (.unknownStore inst))

/-- Rust `Cpu::misc_mem`: funct3 000 is the unimplemented `fence`, 001 is `fencei`. -/
def Cpu.misc_mem (c : Cpu) (inst : Inst) : Cpu × Option Failure :=
  if inst.funct3 = 0b000 then c.fence inst.imm12
  else if inst.funct3 = 0b001 then c.fencei
  else (c, some (.unknownMiscMem inst))

/-- Rust `Cpu::system`: the six CSR operations by funct3. -/
def Cpu.system (c : Cpu) (inst : Inst) : Cpu × Option Failure :=
  if inst.funct3 = 0b001 then c.csrrw inst.rd inst.rs1 inst.imm12
  else if inst.funct3 = 0b010 then c.csrrs inst.rd inst.rs1 inst.imm12
  else if inst.funct3 = 0b011 then c.csrrc inst.rd inst.rs1 inst.imm12
  else if inst.funct3 = 0b101 then c.csrrwi inst.rd inst.rs1 inst.imm12
  else if inst.funct3 = 0b110 then c.csrrsi inst.rd inst.rs1 inst.imm12
  else if inst.funct3 = 0b111 then c.csrrci inst.rd inst.rs1 inst.imm12
  else (c, some (.unknownSystem inst))

/-- Rust `Cpu::op`: select by (funct3, funct7). -/
def Cpu.op (c : Cpu) (inst : Inst) : Cpu × Option Failure :=
  if inst.funct3 = 0b000 ∧ inst.funct7 = 0b0000000 then c.add inst.rd inst.rs1 inst.rs2
  else if inst.funct3 = 0b000 ∧ inst.funct7 = 0b0000001 then c.mul inst.rd inst.rs1 inst.rs2
  else if inst.funct3 = 0b000 ∧ inst.funct7 = 0b0100000 then c.sub inst.rd inst.rs1 inst.rs2
  else if inst.funct3 = 0b001 ∧ inst.funct7 = 0b0000000 then c.sll inst.rd inst.rs1 inst.rs2
  else if inst.funct3 = 0b001 ∧ inst.funct7 = 0b0000001 then c.mulh inst.rd inst.rs1 inst.rs2
  else if inst.funct3 = 0b010 ∧ inst.funct7 = 0b0000000 then c.slt inst.rd inst.rs1 inst.rs2
  else if inst.funct3 = 0b010 ∧ inst.funct7 = 0b0000001 then c.mulhsu inst.rd inst.rs1 inst.rs2
  else if inst.funct3 = 0b011 ∧ inst.funct7 = 0b0000000 then c.sltu inst.rd inst.rs1 inst.rs2
  else if inst.funct3 = 0b011 ∧ inst.funct7 = 0b0000001 then c.mulhu inst.rd inst.rs1 inst.rs2
  else if inst.funct3 = 0b100 ∧ inst.funct7 = 0b0000000 then c.xor inst.rd inst.rs1 inst.rs2
  else if inst.funct3 = 0b100 ∧ inst.funct7 = 0b0000001 then c.div inst.rd inst.rs1 inst.rs2
  else if inst.funct3 = 0b101 ∧ inst.funct7 = 0b0000000 then c.srl inst.rd inst.rs1 inst.rs2
  else if inst.funct3 = 0b101 ∧ inst.funct7 = 0b0000001 then c.divu inst.rd inst.rs1 inst.rs2
  else if inst.funct3 = 0b101 ∧ inst.funct7 = 0b0100000 then c.sra inst.rd inst.rs1 inst.rs2
  else if inst.funct3 = 0b110 ∧ inst.funct7 = 0b0000000 then c.or inst.rd inst.rs1 inst.rs2
  else if inst.funct3 = 0b110 ∧ inst.funct7 = 0b0000001 then c.rem inst.rd inst.rs1 inst.rs2
  else if inst.funct3 = 0b111 ∧ inst.funct7 = 0b0000000 then c.and inst.rd inst.rs1 inst.rs2
  else if inst.funct3 = 0b111 ∧ inst.funct7 = 0b0000001 then c.remu inst.rd inst.rs1 inst.rs2
  else (c, some (.unknownOp inst))

/-- Rust `Cpu::amo`: select by funct5 (aq/rl are ignored). -/
def Cpu.amo (c : Cpu) (inst : Inst) : Cpu × Option Failure :=
  if inst.funct5 = 0b00010 then c.lrw inst.rd inst.rs1
  else if inst.funct5 = 0b00011 then c.scw inst.rd inst.rs1 inst.rs2
  else if inst.funct5 = 0b00001 then c.amoswapw inst.rd inst.rs1 inst.rs2
  else if inst.funct5 = 0b00000 then c.amoaddw inst.rd inst.rs1 inst.rs2
  else if inst.funct5 = 0b00100 then c.amoxorw inst.rd inst.rs1 inst.rs2
  else if inst.funct5 = 0b01100 then c.amoandw inst.rd inst.rs1 inst.rs2
  else if inst.funct5 = 0b01000 then c.amoorw inst.rd inst.rs1 inst.rs2
  else if inst.funct5 = 0b10000 then c.amominw inst.rd inst.rs1 inst.rs2
  else if inst.funct5 = 0b10100 then c.amomaxw inst.rd inst.rs1 inst.rs2
  else if inst.funct5 = 0b11000 then c.amominuw inst.rd inst.rs1 inst.rs2
  else if inst.funct5 = 0b11100 then c.amomaxuw inst.rd inst.rs1 inst.rs2
  else (c, some (.unknownAmo inst))

/-- Rust `Cpu::do_mnemonic`: dispatch on the 7-bit opcode; an unmatched opcode
is the recoverable `bail!("unknown instruction {:08X}", ir)` carrying the word. -/
def Cpu.do_mnemonic (c : Cpu) (ir : Nat) : Cpu × Option Failure :=
  let opecode := ir &&& 0x7F
  if opecode = 0b0000011 then c.load (Inst.from_i ir)
  else if opecode = 0b0100011 then c.store (Inst.from_s ir)
  else if opecode = 0b1100011 then c.branch (Inst.from_b ir)
  else if opecode = 0b1100111 then c.jalr (Inst.from_i ir)
  else if opecode = 0b0001111 then c.misc_mem (Inst.from_i ir)
  else if opecode = 0b0101111 then c.amo (Inst.from_r ir)
  else if opecode = 0b1101111 then c.jal (Inst.from_j ir)
  else if opecode = 0b0010011 then c.opimm (Inst.from_i ir)
  else if opecode = 0b0110011 then c.op (Inst.from_r ir)
  else if opecode = 0b1110011 then c.system (Inst.from_i ir)
  else if opecode = 0b0010111 then c.auipc (Inst.from_u ir)
  else if opecode = 0b0110111 then c.lui (Inst.from_u ir)
  else (c, some (.unknownInstruction ir))

/-- Rust `Cpu::tick`: advance the bus, evaluate interrupts, advance pc by 4
(wrapping), fetch the word at the new pc, decode-dispatch-execute it. -/
def Cpu.tick (c : Cpu) : Cpu × Option Failure :=
  let c := { c with bus := c.bus.tick }
  let c := c.check_interrupt
  let c := { c with pc := (c.pc + 4) % 2 ^ 32 }
  match c.bus.read32 c.pc with
  | none => (c, some .panicIndexOutOfBounds)
  | some ir => c.do_mnemonic ir

/-! ## Byte-lane lemmas for the CLINT registers -/

/-- Byte lane `j` (little-endian) of a register value. -/
def byteLane (x j : Nat) : Nat := (x >>> (j * 8)) % 256

theorem testBit_byteLane (x j i : Nat) :
    (byteLane x j).testBit i = (decide (i < 8) && x.testBit (j * 8 + i)) := by
  unfold byteLane
  rw [show (256 : Nat) = 2 ^ 8 by norm_num, Nat.testBit_mod_two_pow, Nat.testBit_shiftRight]

theorem testBit_byte_mask (i : Nat) : (0xFF : Nat).testBit i = decide (i < 8) := by
  rw [show (0xFF : Nat) = 2 ^ 8 - 1 by norm_num, Nat.testBit_two_pow_sub_one]

theorem testBit_mask64 (i : Nat) : (0xFFFFFFFFFFFFFFFF : Nat).testBit i = decide (i < 64) := by
  rw [show (0xFFFFFFFFFFFFFFFF : Nat) = 2 ^ 64 - 1 by norm_num, Nat.testBit_two_pow_sub_one]

theorem testBit_of_lt_256 (v i : Nat) (hv : v < 256) (hi : 8 ≤ i) : v.testBit i = false := by
  apply Nat.testBit_lt_two_pow
  calc v < 256 := hv
    _ = 2 ^ 8 := by norm_num
    _ ≤ 2 ^ i := Nat.pow_le_pow_right (by norm_num) hi

/-- Merging byte `val` into lane `off` makes lane `off` read back as `val`. -/
theorem byteLane_applyByte64_self (src val off : Nat) (hv : val < 256) (ho : off < 8) :
    byteLane (applyByte64 src val off) off = val := by
  apply Nat.eq_of_testBit_eq
  intro i
  rw [testBit_byteLane]
  unfold applyByte64
  by_cases hi : i < 8
  · have h64 : off * 8 + i < 64 := by omega
    have hle : off * 8 ≤ off * 8 + i := by omega
    rw [Nat.testBit_or, Nat.testBit_and, Nat.testBit_xor, testBit_mask64,
      Nat.testBit_shiftLeft, Nat.testBit_shiftLeft, testBit_byte_mask,
      Nat.add_sub_cancel_left]
    simp [h64, hle, hi]
  · have hge : 8 ≤ i := by omega
    rw [testBit_of_lt_256 val i hv hge]
    simp [hi]

/-- Merging byte `val` into lane `off` leaves every other lane `j < 8` unchanged. -/
theorem byteLane_applyByte64_other (src val off j : Nat) (hv : val < 256) (ho : off < 8)
    (hj : j < 8) (hne : j ≠ off) :
    byteLane (applyByte64 src val off) j = byteLane src j := by
  apply Nat.eq_of_testBit_eq
  intro i
  rw [testBit_byteLane, testBit_byteLane]
  by_cases hi : i < 8
  · have h64 : j * 8 + i < 64 := by omega
    unfold applyByte64
    rw [Nat.testBit_or, Nat.testBit_and, Nat.testBit_xor, testBit_mask64,
      Nat.testBit_shiftLeft, Nat.testBit_shiftLeft, testBit_byte_mask]
    rcases Nat.lt_or_ge j off with hlt | hge
    · have hout : ¬ (off * 8 ≤ j * 8 + i) := by omega
      simp [h64, hout]
    · have hgt : off < j := by omega
      have hin : off * 8 ≤ j * 8 + i := by omega
      have hbig : 8 ≤ j * 8 + i - off * 8 := by omega
      rw [testBit_of_lt_256 val _ hv hbig]
      have hmaskbit : ¬ (j * 8 + i - off * 8 < 8) := by omega
      simp [h64, hin, hmaskbit]
  · simp [hi]

/-! ## Decode failures never follow a state mutation

`DSafe p c` says: if the step outcome `p` carries a recoverable decode error,
then the state it returns is exactly the entry state `c`. Panic outcomes are
not decode errors, so the lemmas below hold also for the handlers that mutate
state before a panicking memory write. -/

def DSafe (p : Cpu × Option Failure) (c : Cpu) : Prop :=
  ∀ e, p.2 = some e → e.isDecodeFailure = true → p.1 = c

theorem addi_dsafe (c : Cpu) (rd rs1 : Nat) (imm12 : Int) : DSafe (c.addi rd rs1 imm12) c := by
  unfold Cpu.addi
  try unfold_let
  repeat' split
  all_goals intro e h hd
  all_goals first
    | rfl
    | exact Option.noConfusion h
    | (injection h with h1; subst h1; simp [Failure.isDecodeFailure] at hd)

theorem slli_dsafe (c : Cpu) (rd rs1 : Nat) (imm12 : Int) : DSafe (c.slli rd rs1 imm12) c := by
  unfold Cpu.slli
  try unfold_let
  repeat' split
  all_goals intro e h hd
  all_goals first
    | rfl
    | exact Option.noConfusion h
    | (injection h with h1; subst h1; simp [Failure.isDecodeFailure] at hd)

theorem slti_dsafe (c : Cpu) (rd rs1 : Nat) (imm12 : Int) : DSafe (c.slti rd rs1 imm12) c := by
  unfold Cpu.slti
  try unfold_let
  repeat' split
  all_goals intro e h hd
  all_goals first
    | rfl
    | exact Option.noConfusion h
    | (injection h with h1; subst h1; simp [Failure.isDecodeFailure] at hd)

theorem sltiu_dsafe (c : Cpu) (rd rs1 : Nat) (imm12 : Int) : DSafe (c.sltiu rd rs1 imm12) c := by
  unfold Cpu.sltiu
  try unfold_let
  repeat' split
  all_goals intro e h hd
  all_goals first
    | rfl
    | exact Option.noConfusion h
    | (injection h with h1; subst h1; simp [Failure.isDecodeFailure] at hd)

theorem xori_dsafe (c : Cpu) (rd rs1 : Nat) (imm12 : Int) : DSafe (c.xori rd rs1 imm12) c := by
  unfold Cpu.xori
  try unfold_let
  repeat' split
  all_goals intro e h hd
  all_goals first
    | rfl
    | exact Option.noConfusion h
    | (injection h with h1; subst h1; simp [Failure.isDecodeFailure] at hd)

theorem srli_dsafe (c : Cpu) (rd rs1 : Nat) (imm12 : Int) : DSafe (c.srli rd rs1 imm12) c := by
  unfold Cpu.srli
  try unfold_let
  repeat' split
  all_goals intro e h hd
  all_goals first
    | rfl
    | exact Option.noConfusion h
    | (injection h with h1; subst h1; simp [Failure.isDecodeFailure] at hd)

theorem srai_dsafe (c : Cpu) (rd rs1 : Nat) (imm12 : Int) : DSafe (c.srai rd rs1 imm12) c := by
  unfold Cpu.srai
  try unfold_let
  repeat' split
  all_goals intro e h hd
  all_goals first
    | rfl
    | exact Option.noConfusion h
    | (injection h with h1; subst h1; simp [Failure.isDecodeFailure] at hd)

theorem ori_dsafe (c : Cpu) (rd rs1 : Nat) (imm12 : Int) : DSafe (c.ori rd rs1 imm12) c := by
  unfold Cpu.ori
  try unfold_let
  repeat' split
  all_goals intro e h hd
  all_goals first
    | rfl
    | exact Option.noConfusion h
    | (injection h with h1; subst h1; simp [Failure.isDecodeFailure] at hd)

theorem andi_dsafe (c : Cpu) (rd rs1 : Nat) (imm12 : Int) : DSafe (c.andi rd rs1 imm12) c := by
  unfold Cpu.andi
  try unfold_let
  repeat' split
  all_goals intro e h hd
  all_goals first
    | rfl
    | exact Option.noConfusion h
    | (injection h with h1; subst h1; simp [Failure.isDecodeFailure] at hd)

theorem lb_dsafe (c : Cpu) (rd rs1 : Nat) (imm12 : Int) : DSafe (c.lb rd rs1 imm12) c := by
  unfold Cpu.lb
  try unfold_let
  repeat' split
  all_goals intro e h hd
  all_goals first
    | rfl
    | exact Option.noConfusion h
    | (injection h with h1; subst h1; simp [Failure.isDecodeFailure] at hd)

theorem lh_dsafe (c : Cpu) (rd rs1 : Nat) (imm12 : Int) : DSafe (c.lh rd rs1 imm12) c := by
  unfold Cpu.lh
  try unfold_let
  repeat' split
  all_goals intro e h hd
  all_goals first
    | rfl
    | exact Option.noConfusion h
    | (injection h with h1; subst h1; simp [Failure.isDecodeFailure] at hd)

theorem lw_dsafe (c : Cpu) (rd rs1 : Nat) (imm12 : Int) : DSafe (c.lw rd rs1 imm12) c := by
  unfold Cpu.lw
  try unfold_let
  repeat' split
  all_goals intro e h hd
  all_goals first
    | rfl
    | exact Option.noConfusion h
    | (injection h with h1; subst h1; simp [Failure.isDecodeFailure] at hd)

theorem lbu_dsafe (c : Cpu) (rd rs1 : Nat) (imm12 : Int) : DSafe (c.lbu rd rs1 imm12) c := by
  unfold Cpu.lbu
  try unfold_let
  repeat' split
  all_goals intro e h hd
  all_goals first
    | rfl
    | exact Option.noConfusion h
    | (injection h with h1; subst h1; simp [Failure.isDecodeFailure] at hd)

theorem lhu_dsafe (c : Cpu) (rd rs1 : Nat) (imm12 : Int) : DSafe (c.lhu rd rs1 imm12) c := by
  unfold Cpu.lhu
  try unfold_let
  repeat' split
  all_goals intro e h hd
  all_goals first
    | rfl
    | exact Option.noConfusion h
    | (injection h with h1; subst h1; simp [Failure.isDecodeFailure] at hd)

theorem beq_dsafe (c : Cpu) (rs1 rs2 : Nat) (imm12 : Int) : DSafe (c.beq rs1 rs2 imm12) c := by
  unfold Cpu.beq
  try unfold_let
  repeat' split
  all_goals intro e h hd
  all_goals first
    | rfl
    | exact Option.noConfusion h
    | (injection h with h1; subst h1; simp [Failure.isDecodeFailure] at hd)

theorem bne_dsafe (c : Cpu) (rs1 rs2 : Nat) (imm12 : Int) : DSafe (c.bne rs1 rs2 imm12) c := by
  unfold Cpu.bne
  try unfold_let
  repeat' split
  all_goals intro e h hd
  all_goals first
    | rfl
    | exact Option.noConfusion h
    | (injection h with h1; subst h1; simp [Failure.isDecodeFailure] at hd)

theorem blt_dsafe (c : Cpu) (rs1 rs2 : Nat) (imm12 : Int) : DSafe (c.blt rs1 rs2 imm12) c := by
  unfold Cpu.blt
  try unfold_let
  repeat' split
  all_goals intro e h hd
  all_goals first
    | rfl
    | exact Option.noConfusion h
    | (injection h with h1; subst h1; simp [Failure.isDecodeFailure] at hd)

theorem bge_dsafe (c : Cpu) (rs1 rs2 : Nat) (imm12 : Int) : DSafe (c.bge rs1 rs2 imm12) c := by
  unfold Cpu.bge
  try unfold_let
  repeat' split
  all_goals intro e h hd
  all_goals first
    | rfl
    | exact Option.noConfusion h
    | (injection h with h1; subst h1; simp [Failure.isDecodeFailure] at hd)

theorem bltu_dsafe (c : Cpu) (rs1 rs2 : Nat) (imm12 : Int) : DSafe (c.bltu rs1 rs2 imm12) c := by
  unfold Cpu.bltu
  try unfold_let
  repeat' split
  all_goals intro e h hd
  all_goals first
    | rfl
    | exact Option.noConfusion h
    | (injection h with h1; subst h1; simp [Failure.isDecodeFailure] at hd)

theorem bgeu_dsafe (c : Cpu) (rs1 rs2 : Nat) (imm12 : Int) : DSafe (c.bgeu rs1 rs2 imm12) c := by
  unfold Cpu.bgeu
  try unfold_let
  repeat' split
  all_goals intro e h hd
  all_goals first
    | rfl
    | exact Option.noConfusion h
    | (injection h with h1; subst h1; simp [Failure.isDecodeFailure] at hd)

theorem sb_dsafe (c : Cpu) (rs1 rs2 : Nat) (imm12 : Int) : DSafe (c.sb rs1 rs2 imm12) c := by
  unfold Cpu.sb
  try unfold_let
  repeat' split
  all_goals intro e h hd
  all_goals first
    | rfl
    | exact Option.noConfusion h
    | (injection h with h1; subst h1; simp [Failure.isDecodeFailure] at hd)

theorem sh_dsafe (c : Cpu) (rs1 rs2 : Nat) (imm12 : Int) : DSafe (c.sh rs1 rs2 imm12) c := by
  unfold Cpu.sh
  try unfold_let
  repeat' split
  all_goals intro e h hd
  all_goals first
    | rfl
    | exact Option.noConfusion h
    | (injection h with h1; subst h1; simp [Failure.isDecodeFailure] at hd)

theorem sw_dsafe (c : Cpu) (rs1 rs2 : Nat) (imm12 : Int) : DSafe (c.sw rs1 rs2 imm12) c := by
  unfold Cpu.sw
  try unfold_let
  repeat' split
  all_goals intro e h hd
  all_goals first
    | rfl
    | exact Option.noConfusion h
    | (injection h with h1; subst h1; simp [Failure.isDecodeFailure] at hd)

theorem csrrw_dsafe (c : Cpu) (rd rs1 : Nat) (imm12 : Int) : DSafe (c.csrrw rd rs1 imm12) c := by
  unfold Cpu.csrrw
  try unfold_let
  repeat' split
  all_goals intro e h hd
  all_goals first
    | rfl
    | exact Option.noConfusion h
    | (injection h with h1; subst h1; simp [Failure.isDecodeFailure] at hd)

theorem csrrs_dsafe (c : Cpu) (rd rs1 : Nat) (imm12 : Int) : DSafe (c.csrrs rd rs1 imm12) c := by
  unfold Cpu.csrrs
  try unfold_let
  repeat' split
  all_goals intro e h hd
  all_goals first
    | rfl
    | exact Option.noConfusion h
    | (injection h with h1; subst h1; simp [Failure.isDecodeFailure] at hd)

theorem csrrc_dsafe (c : Cpu) (rd rs1 : Nat) (imm12 : Int) : DSafe (c.csrrc rd rs1 imm12) c := by
  unfold Cpu.csrrc
  try unfold_let
  repeat' split
  all_goals intro e h hd
  all_goals first
    | rfl
    | exact Option.noConfusion h
    | (injection h with h1; subst h1; simp [Failure.isDecodeFailure] at hd)

theorem csrrwi_dsafe (c : Cpu) (rd rs1 : Nat) (imm12 : Int) : DSafe (c.csrrwi rd rs1 imm12) c := by
  unfold Cpu.csrrwi
  try unfold_let
  repeat' split
  all_goals intro e h hd
  all_goals first
    | rfl
    | exact Option.noConfusion h
    | (injection h with h1; subst h1; simp [Failure.isDecodeFailure] at hd)

theorem csrrsi_dsafe (c : Cpu) (rd rs1 : Nat) (imm12 : Int) : DSafe (c.csrrsi rd rs1 imm12) c := by
  unfold Cpu.csrrsi
  try unfold_let
  repeat' split
  all_goals intro e h hd
  all_goals first
    | rfl
    | exact Option.noConfusion h
    | (injection h with h1; subst h1; simp [Failure.isDecodeFailure] at hd)

theorem csrrci_dsafe (c : Cpu) (rd rs1 : Nat) (imm12 : Int) : DSafe (c.csrrci rd rs1 imm12) c := by
  unfold Cpu.csrrci
  try unfold_let
  repeat' split
  all_goals intro e h hd
  all_goals first
    | rfl
    | exact Option.noConfusion h
    | (injection h with h1; subst h1; simp [Failure.isDecodeFailure] at hd)

theorem add_dsafe (c : Cpu) (rd rs1 rs2 : Nat) : DSafe (c.add rd rs1 rs2) c := by
  unfold Cpu.add
  try unfold_let
  repeat' split
  all_goals intro e h hd
  all_goals first
    | rfl
    | exact Option.noConfusion h
    | (injection h with h1; subst h1; simp [Failure.isDecodeFailure] at hd)

theorem mul_dsafe (c : Cpu) (rd rs1 rs2 : Nat) : DSafe (c.mul rd rs1 rs2) c := by
  unfold Cpu.mul
  try unfold_let
  repeat' split
  all_goals intro e h hd
  all_goals first
    | rfl
    | exact Option.noConfusion h
    | (injection h with h1; subst h1; simp [Failure.isDecodeFailure] at hd)

theorem sub_dsafe (c : Cpu) (rd rs1 rs2 : Nat) : DSafe (c.sub rd rs1 rs2) c := by
  unfold Cpu.sub
  try unfold_let
  repeat' split
  all_goals intro e h hd
  all_goals first
    | rfl
    | exact Option.noConfusion h
    | (injection h with h1; subst h1; simp [Failure.isDecodeFailure] at hd)

theorem sll_dsafe (c : Cpu) (rd rs1 rs2 : Nat) : DSafe (c.sll rd rs1 rs2) c := by
  unfold Cpu.sll
  try unfold_let
  repeat' split
  all_goals intro e h hd
  all_goals first
    | rfl
    | exact Option.noConfusion h
    | (injection h with h1; subst h1; simp [Failure.isDecodeFailure] at hd)

theorem mulh_dsafe (c : Cpu) (rd rs1 rs2 : Nat) : DSafe (c.mulh rd rs1 rs2) c := by
  unfold Cpu.mulh
  try unfold_let
  repeat' split
  all_goals intro e h hd
  all_goals first
    | rfl
    | exact Option.noConfusion h
    | (injection h with h1; subst h1; simp [Failure.isDecodeFailure] at hd)

theorem slt_dsafe (c : Cpu) (rd rs1 rs2 : Nat) : DSafe (c.slt rd rs1 rs2) c := by
  unfold Cpu.slt
  try unfold_let
  repeat' split
  all_goals intro e h hd
  all_goals first
    | rfl
    | exact Option.noConfusion h
    | (injection h with h1; subst h1; simp [Failure.isDecodeFailure] at hd)

theorem mulhsu_dsafe (c : Cpu) (rd rs1 rs2 : Nat) : DSafe (c.mulhsu rd rs1 rs2) c := by
  unfold Cpu.mulhsu
  try unfold_let
  repeat' split
  all_goals intro e h hd
  all_goals first
    | rfl
    | exact Option.noConfusion h
    | (injection h with h1; subst h1; simp [Failure.isDecodeFailure] at hd)

theorem sltu_dsafe (c : Cpu) (rd rs1 rs2 : Nat) : DSafe (c.sltu rd rs1 rs2) c := by
  unfold Cpu.sltu
  try unfold_let
  repeat' split
  all_goals intro e h hd
  all_goals first
    | rfl
    | exact Option.noConfusion h
    | (injection h with h1; subst h1; simp [Failure.isDecodeFailure] at hd)

theorem mulhu_dsafe (c : Cpu) (rd rs1 rs2 : Nat) : DSafe (c.mulhu rd rs1 rs2) c := by
  unfold Cpu.mulhu
  try unfold_let
  repeat' split
  all_goals intro e h hd
  all_goals first
    | rfl
    | exact Option.noConfusion h
    | (injection h with h1; subst h1; simp [Failure.isDecodeFailure] at hd)

theorem xor_dsafe (c : Cpu) (rd rs1 rs2 : Nat) : DSafe (c.xor rd rs1 rs2) c := by
  unfold Cpu.xor
  try unfold_let
  repeat' split
  all_goals intro e h hd
  all_goals first
    | rfl
    | exact Option.noConfusion h
    | (injection h with h1; subst h1; simp [Failure.isDecodeFailure] at hd)

theorem div_dsafe (c : Cpu) (rd rs1 rs2 : Nat) : DSafe (c.div rd rs1 rs2) c := by
  unfold Cpu.div
  try unfold_let
  repeat' split
  all_goals intro e h hd
  all_goals first
    | rfl
    | exact Option.noConfusion h
    | (injection h with h1; subst h1; simp [Failure.isDecodeFailure] at hd)

theorem srl_dsafe (c : Cpu) (rd rs1 rs2 : Nat) : DSafe (c.srl rd rs1 rs2) c := by
  unfold Cpu.srl
  try unfold_let
  repeat' split
  all_goals intro e h hd
  all_goals first
    | rfl
    | exact Option.noConfusion h
    | (injection h with h1; subst h1; simp [Failure.isDecodeFailure] at hd)

theorem divu_dsafe (c : Cpu) (rd rs1 rs2 : Nat) : DSafe (c.divu rd rs1 rs2) c := by
  unfold Cpu.divu
  try unfold_let
  repeat' split
  all_goals intro e h hd
  all_goals first
    | rfl
    | exact Option.noConfusion h
    | (injection h with h1; subst h1; simp [Failure.isDecodeFailure] at hd)

theorem sra_dsafe (c : Cpu) (rd rs1 rs2 : Nat) : DSafe (c.sra rd rs1 rs2) c := by
  unfold Cpu.sra
  try unfold_let
  repeat' split
  all_goals intro e h hd
  all_goals first
    | rfl
    | exact Option.noConfusion h
    | (injection h with h1; subst h1; simp [Failure.isDecodeFailure] at hd)

theorem or_dsafe (c : Cpu) (rd rs1 rs2 : Nat) : DSafe (c.or rd rs1 rs2) c := by
  unfold Cpu.or
  try unfold_let
  repeat' split
  all_goals intro e h hd
  all_goals first
    | rfl
    | exact Option.noConfusion h
    | (injection h with h1; subst h1; simp [Failure.isDecodeFailure] at hd)

theorem rem_dsafe (c : Cpu) (rd rs1 rs2 : Nat) : DSafe (c.rem rd rs1 rs2) c := by
  unfold Cpu.rem
  try unfold_let
  repeat' split
  all_goals intro e h hd
  all_goals first
    | rfl
    | exact Option.noConfusion h
    | (injection h with h1; subst h1; simp [Failure.isDecodeFailure] at hd)

theorem and_dsafe (c : Cpu) (rd rs1 rs2 : Nat) : DSafe (c.and rd rs1 rs2) c := by
  unfold Cpu.and
  try unfold_let
  repeat' split
  all_goals intro e h hd
  all_goals first
    | rfl
    | exact Option.noConfusion h
    | (injection h with h1; subst h1; simp [Failure.isDecodeFailure] at hd)

theorem remu_dsafe (c : Cpu) (rd rs1 rs2 : Nat) : DSafe (c.remu rd rs1 rs2) c := by
  unfold Cpu.remu
  try unfold_let
  repeat' split
  all_goals intro e h hd
  all_goals first
    | rfl
    | exact Option.noConfusion h
    | (injection h with h1; subst h1; simp [Failure.isDecodeFailure] at hd)

theorem scw_dsafe (c : Cpu) (rd rs1 rs2 : Nat) : DSafe (c.scw rd rs1 rs2) c := by
  unfold Cpu.scw
  try unfold_let
  repeat' split
  all_goals intro e h hd
  all_goals first
    | rfl
    | exact Option.noConfusion h
    | (injection h with h1; subst h1; simp [Failure.isDecodeFailure] at hd)

theorem amoswapw_dsafe (c : Cpu) (rd rs1 rs2 : Nat) : DSafe (c.amoswapw rd rs1 rs2) c := by
  unfold Cpu.amoswapw
  try unfold_let
  repeat' split
  all_goals intro e h hd
  all_goals first
    | rfl
    | exact Option.noConfusion h
    | (injection h with h1; subst h1; simp [Failure.isDecodeFailure] at hd)

theorem amoaddw_dsafe (c : Cpu) (rd rs1 rs2 : Nat) : DSafe (c.amoaddw rd rs1 rs2) c := by
  unfold Cpu.amoaddw
  try unfold_let
  repeat' split
  all_goals intro e h hd
  all_goals first
    | rfl
    | exact Option.noConfusion h
    | (injection h with h1; subst h1; simp [Failure.isDecodeFailure] at hd)

theorem amoxorw_dsafe (c : Cpu) (rd rs1 rs2 : Nat) : DSafe (c.amoxorw rd rs1 rs2) c := by
  unfold Cpu.amoxorw
  try unfold_let
  repeat' split
  all_goals intro e h hd
  all_goals first
    | rfl
    | exact Option.noConfusion h
    | (injection h with h1; subst h1; simp [Failure.isDecodeFailure] at hd)

theorem amoandw_dsafe (c : Cpu) (rd rs1 rs2 : Nat) : DSafe (c.amoandw rd rs1 rs2) c := by
  unfold Cpu.amoandw
  try unfold_let
  repeat' split
  all_goals intro e h hd
  all_goals first
    | rfl
    | exact Option.noConfusion h
    | (injection h with h1; subst h1; simp [Failure.isDecodeFailure] at hd)

theorem amoorw_dsafe (c : Cpu) (rd rs1 rs2 : Nat) : DSafe (c.amoorw rd rs1 rs2) c := by
  unfold Cpu.amoorw
  try unfold_let
  repeat' split
  all_goals intro e h hd
  all_goals first
    | rfl
    | exact Option.noConfusion h
    | (injection h with h1; subst h1; simp [Failure.isDecodeFailure] at hd)

theorem amominw_dsafe (c : Cpu) (rd rs1 rs2 : Nat) : DSafe (c.amominw rd rs1 rs2) c := by
  unfold Cpu.amominw
  try unfold_let
  repeat' split
  all_goals intro e h hd
  all_goals first
    | rfl
    | exact Option.noConfusion h
    | (injection h with h1; subst h1; simp [Failure.isDecodeFailure] at hd)

theorem amomaxw_dsafe (c : Cpu) (rd rs1 rs2 : Nat) : DSafe (c.amomaxw rd rs1 rs2) c := by
  unfold Cpu.amomaxw
  try unfold_let
  repeat' split
  all_goals intro e h hd
  all_goals first
    | rfl
    | exact Option.noConfusion h
    | (injection h with h1; subst h1; simp [Failure.isDecodeFailure] at hd)

theorem amominuw_dsafe (c : Cpu) (rd rs1 rs2 : Nat) : DSafe (c.amominuw rd rs1 rs2) c := by
  unfold Cpu.amominuw
  try unfold_let
  repeat' split
  all_goals intro e h hd
  all_goals first
    | rfl
    | exact Option.noConfusion h
    | (injection h with h1; subst h1; simp [Failure.isDecodeFailure] at hd)

theorem amomaxuw_dsafe (c : Cpu) (rd rs1 rs2 : Nat) : DSafe (c.amomaxuw rd rs1 rs2) c := by
  unfold Cpu.amomaxuw
  try unfold_let
  repeat' split
  all_goals intro e h hd
  all_goals first
    | rfl
    | exact Option.noConfusion h
    | (injection h with h1; subst h1; simp [Failure.isDecodeFailure] at hd)

theorem lrw_dsafe (c : Cpu) (rd rs1 : Nat) : DSafe (c.lrw rd rs1) c := by
  unfold Cpu.lrw
  try unfold_let
  repeat' split
  all_goals intro e h hd
  all_goals first
    | rfl
    | exact Option.noConfusion h
    | (injection h with h1; subst h1; simp [Failure.isDecodeFailure] at hd)

theorem jal_dsafe (c : Cpu) (inst : Inst) : DSafe (c.jal inst) c := by
  unfold Cpu.jal
  try unfold_let
  repeat' split
  all_goals intro e h hd
  all_goals first
    | rfl
    | exact Option.noConfusion h
    | (injection h with h1; subst h1; simp [Failure.isDecodeFailure] at hd)

theorem jalr_dsafe (c : Cpu) (inst : Inst) : DSafe (c.jalr inst) c := by
  unfold Cpu.jalr
  try unfold_let
  repeat' split
  all_goals intro e h hd
  all_goals first
    | rfl
    | exact Option.noConfusion h
    | (injection h with h1; subst h1; simp [Failure.isDecodeFailure] at hd)

theorem auipc_dsafe (c : Cpu) (inst : Inst) : DSafe (c.auipc inst) c := by
  unfold Cpu.auipc
  try unfold_let
  repeat' split
  all_goals intro e h hd
  all_goals first
    | rfl
    | exact Option.noConfusion h
    | (injection h with h1; subst h1; simp [Failure.isDecodeFailure] at hd)

theorem lui_dsafe (c : Cpu) (inst : Inst) : DSafe (c.lui inst) c := by
  unfold Cpu.lui
  try unfold_let
  repeat' split
  all_goals intro e h hd
  all_goals first
    | rfl
    | exact Option.noConfusion h
    | (injection h with h1; subst h1; simp [Failure.isDecodeFailure] at hd)

theorem opimm_dsafe (c : Cpu) (inst : Inst) : DSafe (c.opimm inst) c := by
  unfold Cpu.opimm
  try unfold_let
  repeat' split
  all_goals first
    | exact addi_dsafe _ _ _ _
    | exact slli_dsafe _ _ _ _
    | exact slti_dsafe _ _ _ _
    | exact sltiu_dsafe _ _ _ _
    | exact xori_dsafe _ _ _ _
    | exact srli_dsafe _ _ _ _
    | exact srai_dsafe _ _ _ _
    | exact ori_dsafe _ _ _ _
    | exact andi_dsafe _ _ _ _
    | exact fun e h hd => rfl

theorem branch_dsafe (c : Cpu) (inst : Inst) : DSafe (c.branch inst) c := by
  unfold Cpu.branch
  try unfold_let
  repeat' split
  all_goals first
    | exact beq_dsafe _ _ _ _
    | exact bne_dsafe _ _ _ _
    | exact blt_dsafe _ _ _ _
    | exact bge_dsafe _ _ _ _
    | exact bltu_dsafe _ _ _ _
    | exact bgeu_dsafe _ _ _ _
    | exact fun e h hd => rfl

theorem load_dsafe (c : Cpu) (inst : Inst) : DSafe (c.load inst) c := by
  unfold Cpu.load
  try unfold_let
  repeat' split
  all_goals first
    | exact lb_dsafe _ _ _ _
    | exact lh_dsafe _ _ _ _
    | exact lw_dsafe _ _ _ _
    | exact lbu_dsafe _ _ _ _
    | exact lhu_dsafe _ _ _ _
    | exact fun e h hd => rfl

theorem store_dsafe (c : Cpu) (inst : Inst) : DSafe (c.store inst) c := by
  unfold Cpu.store
  try unfold_let
  repeat' split
  all_goals first
    | exact sb_dsafe _ _ _ _
    | exact sh_dsafe _ _ _ _
    | exact sw_dsafe _ _ _ _
    | exact fun e h hd => rfl

theorem system_dsafe (c : Cpu) (inst : Inst) : DSafe (c.system inst) c := by
  unfold Cpu.system
  try unfold_let
  repeat' split
  all_goals first
    | exact csrrw_dsafe _ _ _ _
    | exact csrrs_dsafe _ _ _ _
    | exact csrrc_dsafe _ _ _ _
    | exact csrrwi_dsafe _ _ _ _
    | exact csrrsi_dsafe _ _ _ _
    | exact csrrci_dsafe _ _ _ _
    | exact fun e h hd => rfl

theorem op_dsafe (c : Cpu) (inst : Inst) : DSafe (c.op inst) c := by
  unfold Cpu.op
  by_cases h1 : inst.funct3 = 0 ∧ inst.funct7 = 0
  · rw [if_pos h1]; exact add_dsafe _ _ _ _
  rw [if_neg h1]
  by_cases h2 : inst.funct3 = 0 ∧ inst.funct7 = 1
  · rw [if_pos h2]; exact mul_dsafe _ _ _ _
  rw [if_neg h2]
  by_cases h3 : inst.funct3 = 0 ∧ inst.funct7 = 32
  · rw [if_pos h3]; exact sub_dsafe _ _ _ _
  rw [if_neg h3]
  by_cases h4 : inst.funct3 = 1 ∧ inst.funct7 = 0
  · rw [if_pos h4]; exact sll_dsafe _ _ _ _
  rw [if_neg h4]
  by_cases h5 : inst.funct3 = 1 ∧ inst.funct7 = 1
  · rw [if_pos h5]; exact mulh_dsafe _ _ _ _
  rw [if_neg h5]
  by_cases h6 : inst.funct3 = 2 ∧ inst.funct7 = 0
  · rw [if_pos h6]; exact slt_dsafe _ _ _ _
  rw [if_neg h6]
  by_cases h7 : inst.funct3 = 2 ∧ inst.funct7 = 1
  · rw [if_pos h7]; exact mulhsu_dsafe _ _ _ _
  rw [if_neg h7]
  by_cases h8 : inst.funct3 = 3 ∧ inst.funct7 = 0
  · rw [if_pos h8]; exact sltu_dsafe _ _ _ _
  rw [if_neg h8]
  by_cases h9 : inst.funct3 = 3 ∧ inst.funct7 = 1
  · rw [if_pos h9]; exact mulhu_dsafe _ _ _ _
  rw [if_neg h9]
  by_cases h10 : inst.funct3 = 4 ∧ inst.funct7 = 0
  · rw [if_pos h10]; exact xor_dsafe _ _ _ _
  rw [if_neg h10]
  by_cases h11 : inst.funct3 = 4 ∧ inst.funct7 = 1
  · rw [if_pos h11]; exact div_dsafe _ _ _ _
  rw [if_neg h11]
  by_cases h12 : inst.funct3 = 5 ∧ inst.funct7 = 0
  · rw [if_pos h12]; exact srl_dsafe _ _ _ _
  rw [if_neg h12]
  by_cases h13 : inst.funct3 = 5 ∧ inst.funct7 = 1
  · rw [if_pos h13]; exact divu_dsafe _ _ _ _
  rw [if_neg h13]
  by_cases h14 : inst.funct3 = 5 ∧ inst.funct7 = 32
  · rw [if_pos h14]; exact sra_dsafe _ _ _ _
  rw [if_neg h14]
  by_cases h15 : inst.funct3 = 6 ∧ inst.funct7 = 0
  · rw [if_pos h15]; exact or_dsafe _ _ _ _
  rw [if_neg h15]
  by_cases h16 : inst.funct3 = 6 ∧ inst.funct7 = 1
  · rw [if_pos h16]; exact rem_dsafe _ _ _ _
  rw [if_neg h16]
  by_cases h17 : inst.funct3 = 7 ∧ inst.funct7 = 0
  · rw [if_pos h17]; exact and_dsafe _ _ _ _
  rw [if_neg h17]
  by_cases h18 : inst.funct3 = 7 ∧ inst.funct7 = 1
  · rw [if_pos h18]; exact remu_dsafe _ _ _ _
  rw [if_neg h18]
  exact fun e h hd => rfl

theorem amo_dsafe (c : Cpu) (inst : Inst) : DSafe (c.amo inst) c := by
  unfold Cpu.amo
  by_cases h1 : inst.funct5 = 2
  · rw [if_pos h1]; exact lrw_dsafe _ _ _
  rw [if_neg h1]
  by_cases h2 : inst.funct5 = 3
  · rw [if_pos h2]; exact scw_dsafe _ _ _ _
  rw [if_neg h2]
  by_cases h3 : inst.funct5 = 1
  · rw [if_pos h3]; exact amoswapw_dsafe _ _ _ _
  rw [if_neg h3]
  by_cases h4 : inst.funct5 = 0
  · rw [if_pos h4]; exact amoaddw_dsafe _ _ _ _
  rw [if_neg h4]
  by_cases h5 : inst.funct5 = 4
  · rw [if_pos h5]; exact amoxorw_dsafe _ _ _ _
  rw [if_neg h5]
  by_cases h6 : inst.funct5 = 12
  · rw [if_pos h6]; exact amoandw_dsafe _ _ _ _
  rw [if_neg h6]
  by_cases h7 : inst.funct5 = 8
  · rw [if_pos h7]; exact amoorw_dsafe _ _ _ _
  rw [if_neg h7]
  by_cases h8 : inst.funct5 = 16
  · rw [if_pos h8]; exact amominw_dsafe _ _ _ _
  rw [if_neg h8]
  by_cases h9 : inst.funct5 = 20
  · rw [if_pos h9]; exact amomaxw_dsafe _ _ _ _
  rw [if_neg h9]
  by_cases h10 : inst.funct5 = 24
  · rw [if_pos h10]; exact amominuw_dsafe _ _ _ _
  rw [if_neg h10]
  by_cases h11 : inst.funct5 = 28
  · rw [if_pos h11]; exact amomaxuw_dsafe _ _ _ _
  rw [if_neg h11]
  exact fun e h hd => rfl

theorem misc_mem_dsafe (c : Cpu) (inst : Inst) : DSafe (c.misc_mem inst) c := by
  unfold Cpu.misc_mem Cpu.fence Cpu.fencei
  repeat' split
  all_goals exact fun e h hd => rfl

theorem do_mnemonic_dsafe (c : Cpu) (ir : Nat) : DSafe (c.do_mnemonic ir) c := by
  unfold Cpu.do_mnemonic
  try unfold_let
  by_cases h1 : ir &&& 127 = 3
  · rw [if_pos h1]; exact load_dsafe _ _
  rw [if_neg h1]
  by_cases h2 : ir &&& 127 = 35
  · rw [if_pos h2]; exact store_dsafe _ _
  rw [if_neg h2]
  by_cases h3 : ir &&& 127 = 99
  · rw [if_pos h3]; exact branch_dsafe _ _
  rw [if_neg h3]
  by_cases h4 : ir &&& 127 = 103
  · rw [if_pos h4]; exact jalr_dsafe _ _
  rw [if_neg h4]
  by_cases h5 : ir &&& 127 = 15
  · rw [if_pos h5]; exact misc_mem_dsafe _ _
  rw [if_neg h5]
  by_cases h6 : ir &&& 127 = 47
  · rw [if_pos h6]; exact amo_dsafe _ _
  rw [if_neg h6]
  by_cases h7 : ir &&& 127 = 111
  · rw [if_pos h7]; exact jal_dsafe _ _
  rw [if_neg h7]
  by_cases h8 : ir &&& 127 = 19
  · rw [if_pos h8]; exact opimm_dsafe _ _
  rw [if_neg h8]
  by_cases h9 : ir &&& 127 = 51
  · rw [if_pos h9]; exact op_dsafe _ _
  rw [if_neg h9]
  by_cases h10 : ir &&& 127 = 115
  · rw [if_pos h10]; exact system_dsafe _ _
  rw [if_neg h10]
  by_cases h11 : ir &&& 127 = 23
  · rw [if_pos h11]; exact auipc_dsafe _ _
  rw [if_neg h11]
  by_cases h12 : ir &&& 127 = 55
  · rw [if_pos h12]; exact lui_dsafe _ _
  rw [if_neg h12]
  exact fun e h hd => rfl

/-- The twelve opcodes the dispatch implements; anything else falls to the
`unknown instruction` arm. -/
def unimplementedOpcode (o : Nat) : Prop :=
  o ≠ 0b0000011 ∧ o ≠ 0b0100011 ∧ o ≠ 0b1100011 ∧ o ≠ 0b1100111 ∧ o ≠ 0b0001111 ∧
  o ≠ 0b0101111 ∧ o ≠ 0b1101111 ∧ o ≠ 0b0010011 ∧ o ≠ 0b0110011 ∧ o ≠ 0b1110011 ∧
  o ≠ 0b0010111 ∧ o ≠ 0b0110111

/-- Opcode field of an instruction word, as the dispatch reads it. -/
def opcodeOf (ir : Nat) : Nat := ir &&& 0x7F

/-- The funct3 field, as every `Inst.from_*` constructor computes it. -/
def funct3Of (ir : Nat) : Nat := (ir >>> 12) &&& 0b111

/-- The funct7 field, as `Inst.from_r` / `Inst.from_i` compute it. -/
def funct7Of (ir : Nat) : Nat := (ir >>> 25) &&& 0b1111111

/-- The funct5 field, as `Inst.from_r` computes it. -/
def funct5Of (ir : Nat) : Nat := (ir >>> 27) &&& 0b11111

/-- The set of instruction words whose opcode/funct3/funct7/funct5 combination
matches no implemented operation: the union of the dispatch's default arms,
transcribed category by category from the match tables (LOAD funct3 in
{0,1,2,4,5}; STORE {0,1,2}; BRANCH {0,1,4,5,6,7}; MISC-MEM {0,1}; the eleven
AMO funct5 codes; OP-IMM shifts constrained by funct7; the (funct3, funct7)
pairs of OP; SYSTEM funct3 in {1,2,3,5,6,7}; JALR/JAL/AUIPC/LUI have no
unknown arm). -/
def unknownCombo (ir : Nat) : Prop :=
  unimplementedOpcode (opcodeOf ir) ∨
  (opcodeOf ir = 0b0000011 ∧ funct3Of ir ≠ 0 ∧ funct3Of ir ≠ 1 ∧ funct3Of ir ≠ 2 ∧
    funct3Of ir ≠ 4 ∧ funct3Of ir ≠ 5) ∨
  (opcodeOf ir = 0b0100011 ∧ funct3Of ir ≠ 0 ∧ funct3Of ir ≠ 1 ∧ funct3Of ir ≠ 2) ∨
  (opcodeOf ir = 0b1100011 ∧ funct3Of ir ≠ 0 ∧ funct3Of ir ≠ 1 ∧ funct3Of ir ≠ 4 ∧
    funct3Of ir ≠ 5 ∧ funct3Of ir ≠ 6 ∧ funct3Of ir ≠ 7) ∨
  (opcodeOf ir = 0b0001111 ∧ funct3Of ir ≠ 0 ∧ funct3Of ir ≠ 1) ∨
  (opcodeOf ir = 0b0101111 ∧ funct5Of ir ≠ 2 ∧ funct5Of ir ≠ 3 ∧ funct5Of ir ≠ 1 ∧
    funct5Of ir ≠ 0 ∧ funct5Of ir ≠ 4 ∧ funct5Of ir ≠ 12 ∧ funct5Of ir ≠ 8 ∧
    funct5Of ir ≠ 16 ∧ funct5Of ir ≠ 20 ∧ funct5Of ir ≠ 24 ∧ funct5Of ir ≠ 28) ∨
  (opcodeOf ir = 0b0010011 ∧ ((funct3Of ir = 1 ∧ funct7Of ir ≠ 0) ∨
    (funct3Of ir = 5 ∧ funct7Of ir ≠ 0 ∧ funct7Of ir ≠ 16))) ∨
  (opcodeOf ir = 0b0110011 ∧ funct7Of ir ≠ 0 ∧ funct7Of ir ≠ 1 ∧
    (funct7Of ir = 32 → funct3Of ir ≠ 0 ∧ funct3Of ir ≠ 5)) ∨
  (opcodeOf ir = 0b1110011 ∧ funct3Of ir ≠ 1 ∧ funct3Of ir ≠ 2 ∧ funct3Of ir ≠ 3 ∧
    funct3Of ir ≠ 5 ∧ funct3Of ir ≠ 6 ∧ funct3Of ir ≠ 7)

/-- The recoverable decode error each category's default arm raises, and the
top-level unknown-instruction error for an unimplemented opcode. -/
def decodeFailure (ir : Nat) : Failure :=
  if opcodeOf ir = 0b0000011 then .unknownLoad (Inst.from_i ir)
  else if opcodeOf ir = 0b0100011 then .unknownStore (Inst.from_s ir)
  else if opcodeOf ir = 0b1100011 then .unknownBranch (Inst.from_b ir)
  else if opcodeOf ir = 0b0001111 then .unknownMiscMem (Inst.from_i ir)
  else if opcodeOf ir = 0b0101111 then .unknownAmo (Inst.from_r ir)
  else if opcodeOf ir = 0b0010011 then .unknownOpImm (Inst.from_i ir)
  else if opcodeOf ir = 0b0110011 then .unknownOp (Inst.from_r ir)
  else if opcodeOf ir = 0b1110011 then .unknownSystem (Inst.from_i ir)
  else .unknownInstruction ir

theorem dm_opcode_load (c : Cpu) (ir : Nat) (hop : ir &&& 0x7F = 0b0000011) :
    c.do_mnemonic ir = c.load (Inst.from_i ir) := by
  unfold Cpu.do_mnemonic
  try unfold_let
  rw [hop]
  simp

theorem dm_opcode_store (c : Cpu) (ir : Nat) (hop : ir &&& 0x7F = 0b0100011) :
    c.do_mnemonic ir = c.store (Inst.from_s ir) := by
  unfold Cpu.do_mnemonic
  try unfold_let
  rw [hop]
  simp

theorem dm_opcode_branch (c : Cpu) (ir : Nat) (hop : ir &&& 0x7F = 0b1100011) :
    c.do_mnemonic ir = c.branch (Inst.from_b ir) := by
  unfold Cpu.do_mnemonic
  try unfold_let
  rw [hop]
  simp

theorem dm_opcode_misc_mem (c : Cpu) (ir : Nat) (hop : ir &&& 0x7F = 0b0001111) :
    c.do_mnemonic ir = c.misc_mem (Inst.from_i ir) := by
  unfold Cpu.do_mnemonic
  try unfold_let
  rw [hop]
  simp

theorem dm_opcode_amo (c : Cpu) (ir : Nat) (hop : ir &&& 0x7F = 0b0101111) :
    c.do_mnemonic ir = c.amo (Inst.from_r ir) := by
  unfold Cpu.do_mnemonic
  try unfold_let
  rw [hop]
  simp

theorem dm_opcode_opimm (c : Cpu) (ir : Nat) (hop : ir &&& 0x7F = 0b0010011) :
    c.do_mnemonic ir = c.opimm (Inst.from_i ir) := by
  unfold Cpu.do_mnemonic
  try unfold_let
  rw [hop]
  simp

theorem dm_opcode_op (c : Cpu) (ir : Nat) (hop : ir &&& 0x7F = 0b0110011) :
    c.do_mnemonic ir = c.op (Inst.from_r ir) := by
  unfold Cpu.do_mnemonic
  try unfold_let
  rw [hop]
  simp

theorem dm_opcode_system (c : Cpu) (ir : Nat) (hop : ir &&& 0x7F = 0b1110011) :
    c.do_mnemonic ir = c.system (Inst.from_i ir) := by
  unfold Cpu.do_mnemonic
  try unfold_let
  rw [hop]
  simp

theorem dm_unknown_opcode (c : Cpu) (ir : Nat) (h : unimplementedOpcode (ir &&& 0x7F)) :
    c.do_mnemonic ir = (c, some (.unknownInstruction ir)) := by
  obtain ⟨h1, h2, h3, h4, h5, h6, h7, h8, h9, h10, h11, h12⟩ := h
  unfold Cpu.do_mnemonic
  try unfold_let
  rw [if_neg h1, if_neg h2, if_neg h3, if_neg h4, if_neg h5, if_neg h6, if_neg h7,
    if_neg h8, if_neg h9, if_neg h10, if_neg h11, if_neg h12]

theorem decodeFailure_load (ir : Nat) (hop : ir &&& 0x7F = 0b0000011) :
    decodeFailure ir = .unknownLoad (Inst.from_i ir) := by
  unfold decodeFailure opcodeOf
  rw [hop]
  simp

theorem decodeFailure_store (ir : Nat) (hop : ir &&& 0x7F = 0b0100011) :
    decodeFailure ir = .unknownStore (Inst.from_s ir) := by
  unfold decodeFailure opcodeOf
  rw [hop]
  simp

theorem decodeFailure_branch (ir : Nat) (hop : ir &&& 0x7F = 0b1100011) :
    decodeFailure ir = .unknownBranch (Inst.from_b ir) := by
  unfold decodeFailure opcodeOf
  rw [hop]
  simp

theorem decodeFailure_misc_mem (ir : Nat) (hop : ir &&& 0x7F = 0b0001111) :
    decodeFailure ir = .unknownMiscMem (Inst.from_i ir) := by
  unfold decodeFailure opcodeOf
  rw [hop]
  simp

theorem decodeFailure_amo (ir : Nat) (hop : ir &&& 0x7F = 0b0101111) :
    decodeFailure ir = .unknownAmo (Inst.from_r ir) := by
  unfold decodeFailure opcodeOf
  rw [hop]
  simp

theorem decodeFailure_opimm (ir : Nat) (hop : ir &&& 0x7F = 0b0010011) :
    decodeFailure ir = .unknownOpImm (Inst.from_i ir) := by
  unfold decodeFailure opcodeOf
  rw [hop]
  simp

theorem decodeFailure_op (ir : Nat) (hop : ir &&& 0x7F = 0b0110011) :
    decodeFailure ir = .unknownOp (Inst.from_r ir) := by
  unfold decodeFailure opcodeOf
  rw [hop]
  simp

theorem decodeFailure_system (ir : Nat) (hop : ir &&& 0x7F = 0b1110011) :
    decodeFailure ir = .unknownSystem (Inst.from_i ir) := by
  unfold decodeFailure opcodeOf
  rw [hop]
  simp

theorem decodeFailure_unimpl (ir : Nat) (h : unimplementedOpcode (ir &&& 0x7F)) :
    decodeFailure ir = .unknownInstruction ir := by
  obtain ⟨h1, h2, h3, _, h5, h6, _, h8, h9, h10, _, _⟩ := h
  unfold decodeFailure opcodeOf
  rw [if_neg h1, if_neg h2, if_neg h3, if_neg h5, if_neg h6, if_neg h8, if_neg h9,
    if_neg h10]

theorem load_unknown (c : Cpu) (inst : Inst) (h0 : inst.funct3 ≠ 0) (h1 : inst.funct3 ≠ 1)
    (h2 : inst.funct3 ≠ 2) (h4 : inst.funct3 ≠ 4) (h5 : inst.funct3 ≠ 5) :
    c.load inst = (c, some (.unknownLoad inst)) := by
  unfold Cpu.load
  rw [if_neg h0, if_neg h1, if_neg h2, if_neg h4, if_neg h5]

theorem store_unknown (c : Cpu) (inst : Inst) (h0 : inst.funct3 ≠ 0) (h1 : inst.funct3 ≠ 1)
    (h2 : inst.funct3 ≠ 2) :
    c.store inst = (c, some (.unknownStore inst)) := by
  unfold Cpu.store
  rw [if_neg h0, if_neg h1, if_neg h2]

theorem branch_unknown (c : Cpu) (inst : Inst) (h0 : inst.funct3 ≠ 0) (h1 : inst.funct3 ≠ 1)
    (h4 : inst.funct3 ≠ 4) (h5 : inst.funct3 ≠ 5) (h6 : inst.funct3 ≠ 6)
    (h7 : inst.funct3 ≠ 7) :
    c.branch inst = (c, some (.unknownBranch inst)) := by
  unfold Cpu.branch
  rw [if_neg h0, if_neg h1, if_neg h4, if_neg h5, if_neg h6, if_neg h7]

theorem misc_mem_unknown (c : Cpu) (inst : Inst) (h0 : inst.funct3 ≠ 0)
    (h1 : inst.funct3 ≠ 1) :
    c.misc_mem inst = (c, some (.unknownMiscMem inst)) := by
  unfold Cpu.misc_mem
  rw [if_neg h0, if_neg h1]

theorem amo_unknown (c : Cpu) (inst : Inst) (g2 : inst.funct5 ≠ 2) (g3 : inst.funct5 ≠ 3)
    (g1 : inst.funct5 ≠ 1) (g0 : inst.funct5 ≠ 0) (g4 : inst.funct5 ≠ 4)
    (g12 : inst.funct5 ≠ 12) (g8 : inst.funct5 ≠ 8) (g16 : inst.funct5 ≠ 16)
    (g20 : inst.funct5 ≠ 20) (g24 : inst.funct5 ≠ 24) (g28 : inst.funct5 ≠ 28) :
    c.amo inst = (c, some (.unknownAmo inst)) := by
  unfold Cpu.amo
  rw [if_neg g2, if_neg g3, if_neg g1, if_neg g0, if_neg g4, if_neg g12, if_neg g8,
    if_neg g16, if_neg g20, if_neg g24, if_neg g28]

theorem opimm_unknown (c : Cpu) (inst : Inst)
    (h : (inst.funct3 = 1 ∧ inst.funct7 ≠ 0) ∨
      (inst.funct3 = 5 ∧ inst.funct7 ≠ 0 ∧ inst.funct7 ≠ 16)) :
    c.opimm inst = (c, some (.unknownOpImm inst)) := by
  unfold Cpu.opimm
  rcases h with ⟨h3, h7⟩ | ⟨h3, h7a, h7b⟩
  · rw [h3]
    simp [h7]
  · rw [h3]
    simp [h7a, h7b]

theorem op_unknown (c : Cpu) (inst : Inst) (hA : inst.funct7 ≠ 0) (hB : inst.funct7 ≠ 1)
    (hC : inst.funct7 = 32 → inst.funct3 ≠ 0 ∧ inst.funct3 ≠ 5) :
    c.op inst = (c, some (.unknownOp inst)) := by
  unfold Cpu.op
  rw [if_neg (fun hx => hA hx.2), if_neg (fun hx => hB hx.2),
    if_neg (fun hx => (hC hx.2).1 hx.1),
    if_neg (fun hx => hA hx.2), if_neg (fun hx => hB hx.2),
    if_neg (fun hx => hA hx.2), if_neg (fun hx => hB hx.2),
    if_neg (fun hx => hA hx.2), if_neg (fun hx => hB hx.2),
    if_neg (fun hx => hA hx.2), if_neg (fun hx => hB hx.2),
    if_neg (fun hx => hA hx.2), if_neg (fun hx => hB hx.2),
    if_neg (fun hx => (hC hx.2).2 hx.1),
    if_neg (fun hx => hA hx.2), if_neg (fun hx => hB hx.2),
    if_neg (fun hx => hA hx.2), if_neg (fun hx => hB hx.2)]

theorem system_unknown (c : Cpu) (inst : Inst) (h1 : inst.funct3 ≠ 1) (h2 : inst.funct3 ≠ 2)
    (h3 : inst.funct3 ≠ 3) (h5 : inst.funct3 ≠ 5) (h6 : inst.funct3 ≠ 6)
    (h7 : inst.funct3 ≠ 7) :
    c.system inst = (c, some (.unknownSystem inst)) := by
  unfold Cpu.system
  rw [if_neg h1, if_neg h2, if_neg h3, if_neg h5, if_neg h6, if_neg h7]


/-! ## Concrete states used by the claim theorems -/

/-- RAM bytes holding `ADDI x1,x0,5; ADDI x2,x0,7; ADD x3,x1,x2`
(words 0x00500093, 0x00700113, 0x002081B3, little-endian at indices 0..11). -/
def progRam : Nat → Nat := fun i =>
  if i = 0 then 0x93 else if i = 2 then 0x50
  else if i = 4 then 0x13 else if i = 5 then 0x01 else if i = 6 then 0x70
  else if i = 8 then 0xB3 else if i = 9 then 0x81 else if i = 10 then 0x20
  else 0

/-- Reset CPU with the three-instruction program in the RAM array. -/
def cpuReset : Cpu := Cpu.new { ram := progRam, clint := Clint.new }

/-- CPU at pc 0x8000, all registers zero (so any `beq x0, x0` is taken). -/
def cpuBranch : Cpu := { Cpu.new Bus.new with pc := 0x8000 }

/-- CPU with x1 = 5 and x2 = 0: a guest-supplied zero divisor. -/
def cpuDiv : Cpu := (Cpu.new Bus.new).set_x 1 5

/-- CPU with x1 = INT_MIN and x2 = -1: the signed-overflow division operands. -/
def cpuOvf : Cpu := ((Cpu.new Bus.new).set_x 1 0x80000000).set_x 2 0xFFFFFFFF

/-- CPU with x1 = 1 and x2 = 32: a shift amount of 32 in rs2. -/
def cpuShift : Cpu := ((Cpu.new Bus.new).set_x 1 1).set_x 2 32

/-- Freshly constructed CPU (all state zero). -/
def cpuZero : Cpu := Cpu.new Bus.new

/-- CLINT with mtime = 0 and mtimecmp = 5 (the spec's threshold scenario). -/
def clintCmp5 : Clint := { msip := 0, mtimecmp := 5, mtime := 0 }

/-- CLINT with the pending bit latched and a patterned comparator. -/
def clintLatched : Clint := { msip := 0x80, mtimecmp := 0x1122334455667788, mtime := 41 }

/-- Bus whose CLINT has the pending bit latched and `mtime >= mtimecmp`. -/
def busLatched : Bus := { ram := fun _ => 0, clint := { msip := 0x80, mtimecmp := 5, mtime := 9 } }

/-! ## Claim theorems -/

/-- C1: the claimed RAM round trip `write32(addr, v); read32(addr) = v` does not
hold because it faults: for addr = 0x8000_0000 (the base of the RAM window) both
the 32-bit write and the byte/word reads index `ram[addr as usize]` with the full
bus address, which is out of bounds for the 0x10000-byte array — a Rust panic,
modelled as `none`. -/
theorem c1_ram_window_access_faults :
    Bus.write32 Bus.new 0x80000000 0xDEADBEEF = none ∧
    Bus.read8 Bus.new 0x80000000 = none ∧
    Bus.read32 Bus.new 0x80000000 = none :=
  ⟨rfl, rfl, rfl⟩

/-- C2: `write32` does not decompose into routed `write8` calls. At Timer-window
address 0x1100_4000 the source's `write32` raw-indexes the RAM array and faults,
while the spec-mandated routed decomposition (`write32Routed`) reaches the CLINT:
it clears `msip`, merges the byte into `mtimecmp`, and leaves `mtime` and RAM
alone. At unmapped address 0 the source's `write32` mutates `ram[0]` whereas the
routed decomposition discards the write. -/
theorem c2_write32_bypasses_routing :
    Bus.write32 busLatched 0x11004000 0xAB = none ∧
    (Bus.write32Routed busLatched 0x11004000 0xAB).map
      (fun b => (b.clint.msip, b.clint.mtimecmp, b.clint.mtime, b.ram 0)) =
      some (0, 0xAB, 9, 0) ∧
    (Bus.write32 busLatched 0 0xAB).map (fun b => b.ram 0) = some 0xAB ∧
    (Bus.write32Routed busLatched 0 0xAB).map (fun b => b.ram 0) = some 0 :=
  ⟨rfl, rfl, rfl, rfl⟩

/-- C3: DIV/DIVU/REM/REMU with divisor zero do not produce the RISC-V-mandated
results; `wrapping_div`/`wrapping_rem` panic on a zero divisor (state unchanged
at the panic). The signed-overflow cases do hold: INT_MIN / -1 yields INT_MIN
for DIV and 0 for REM, without fault. -/
theorem c3_division_by_zero_panics :
    (cpuDiv.div 3 1 2).2 = some .panicDivideByZero ∧
    (cpuDiv.div 3 1 2).1 = cpuDiv ∧
    (cpuDiv.divu 3 1 2).2 = some .panicDivideByZero ∧
    (cpuDiv.rem 3 1 2).2 = some .panicDivideByZero ∧
    (cpuDiv.remu 3 1 2).2 = some .panicDivideByZero ∧
    (cpuOvf.div 3 1 2).2 = none ∧
    Cpu.get_x (cpuOvf.div 3 1 2).1 3 = 0x80000000 ∧
    (cpuOvf.rem 3 1 2).2 = none ∧
    Cpu.get_x (cpuOvf.rem 3 1 2).1 3 = 0 :=
  ⟨rfl, rfl, rfl, rfl, rfl, rfl, rfl, rfl, rfl⟩

/-- C4: the end-to-end program does not run. From reset with the three words at
RAM indices 0..11, the first `tick` advances pc to 4 and fetches there, but
`Bus.read8` returns 0 for every address below the 0x8000_0000 window (the RAM
array contents are unreachable at low addresses), so the fetched word is 0 and
the first tick already fails decoding; x3 stays 0, never 12. -/
theorem c4_first_tick_decode_fails :
    (cpuReset.tick).2 = some (.unknownInstruction 0) ∧
    Cpu.get_x (cpuReset.tick).1 3 = 0 ∧
    Cpu.get_x (cpuReset.tick).1 3 ≠ 12 :=
  ⟨rfl, rfl, by decide⟩

/-- C5: the B-format immediate drops imm[12]. For the word 0x80000063
(`BEQ x0, x0` with imm[12] = 1 and all other immediate bits 0, true offset
-4096) the decoder's `(… << 31) as u16` term is always 0, so the decoded
immediate is 0 and the taken branch leaves pc at 0x8000 instead of the
0x7000 the B-format reconstruction mandates. -/
theorem c5_branch_imm12_bit_dropped :
    (Inst.from_b 0x80000063).imm12 = 0 ∧
    (cpuBranch.do_mnemonic 0x80000063).2 = none ∧
    (cpuBranch.do_mnemonic 0x80000063).1.pc = 0x8000 ∧
    (cpuBranch.do_mnemonic 0x80000063).1.pc ≠ 0x7000 :=
  ⟨rfl, rfl, rfl, by decide⟩

/-- C6: `Clint.tick` increments `mtime` by exactly 1 modulo 2^64, and bit 0x80
of the new `msip` is set iff the new `mtime` has reached `mtimecmp` or the bit
was already set (so repeated ticks keep it set); consequently from
mtime = 0, mtimecmp = 5 the bit is clear after 4 ticks and set after 5. -/
theorem c6_clint_tick_threshold :
    (∀ cl : Clint,
      (cl.tick).mtime = (cl.mtime + 1) % 2 ^ 64 ∧
      ((cl.tick).msip.testBit 7 ↔
        (cl.mtimecmp ≤ (cl.mtime + 1) % 2 ^ 64 ∨ cl.msip.testBit 7))) ∧
    (clintCmp5.tick.tick.tick.tick).msip.testBit 7 = false ∧
    (clintCmp5.tick.tick.tick.tick.tick).msip.testBit 7 = true := by
  refine ⟨fun cl => ?_, by decide, by decide⟩
  unfold Clint.tick
  try unfold_let
  split
  · rename_i hc
    refine ⟨rfl, ?_⟩
    have hbit : (cl.msip ||| 0x80).testBit 7 = true := by
      rw [Nat.testBit_or]
      simp [show Nat.testBit 128 7 = true from rfl]
    exact ⟨fun _ => Or.inl hc, fun _ => hbit⟩
  · rename_i hc
    refine ⟨rfl, ?_⟩
    constructor
    · exact fun hb => Or.inr hb
    · intro hor
      rcases hor with hcc | hb
      · exact absurd hcc hc
      · exact hb

/-- C7: writing byte `val` at any offset in the mtimecmp window (0x4000..0x4007)
clears `msip` to 0 (even if the pending bit was latched), replaces exactly the
addressed byte lane of `mtimecmp`, leaves every other lane unchanged, and leaves
`mtime` unchanged. -/
theorem c7_mtimecmp_write_clears_msip (cl : Clint) (off val j : Nat)
    (h1 : 0x4000 ≤ off) (h2 : off ≤ 0x4007) (hv : val < 256) (hj : j < 8)
    (hne : j ≠ off - 0x4000) :
    (cl.write8 off val).msip = 0 ∧
    (cl.write8 off val).mtime = cl.mtime ∧
    byteLane (cl.write8 off val).mtimecmp (off - 0x4000) = val ∧
    byteLane (cl.write8 off val).mtimecmp j = byteLane cl.mtimecmp j := by
  have hoff : off - 0x4000 < 8 := by omega
  have hna : ¬ off ≤ 0x0003 := by omega
  have hw : cl.write8 off val =
      { cl with mtimecmp := applyByte64 cl.mtimecmp val (off - 0x4000), msip := 0x00 } := by
    unfold Clint.write8
    rw [if_neg hna, if_pos ⟨h1, h2⟩]
  rw [hw]
  exact ⟨rfl, rfl, byteLane_applyByte64_self _ _ _ hv hoff,
    byteLane_applyByte64_other _ _ _ _ hv hoff hj hne⟩

/-- C7 witness: offset 0x4003, byte 0xAB, on a CLINT with the pending bit
latched — msip clears, lane 3 becomes 0xAB, lane 0 and mtime are untouched. -/
theorem c7_mtimecmp_write_witness :
    (clintLatched.write8 0x4003 0xAB).msip = 0 ∧
    (clintLatched.write8 0x4003 0xAB).mtime = clintLatched.mtime ∧
    byteLane (clintLatched.write8 0x4003 0xAB).mtimecmp (0x4003 - 0x4000) = 0xAB ∧
    byteLane (clintLatched.write8 0x4003 0xAB).mtimecmp 0 =
      byteLane clintLatched.mtimecmp 0 :=
  c7_mtimecmp_write_clears_msip clintLatched 0x4003 0xAB 0 (by decide) (by decide)
    (by decide) (by decide) (by decide)

/-- C8 counterexample: the recoverable decode error does not always carry the
offending 32-bit word. The two distinct BRANCH words 0x00002063 and 0x80002063
(funct3 = 010, unknown; differing only in instruction bit 31, which `from_b`
truncates away) produce identical outcomes, so no function of the error can
recover the word. -/
theorem c8_error_payload_not_word :
    cpuZero.do_mnemonic 0x00002063 = cpuZero.do_mnemonic 0x80002063 ∧
    (cpuZero.do_mnemonic 0x00002063).2.isSome = true ∧
    (0x00002063 : Nat) ≠ 0x80002063 :=
  ⟨rfl, rfl, by decide⟩

/-- C8 (amended): for every instruction word whose opcode/funct3/funct7/funct5
combination matches no implemented operation, decode-dispatch returns exactly
`(c, some (decodeFailure ir))` — a recoverable decode error with the entry state
returned untouched, so no register or memory mutation precedes it; when the
7-bit opcode itself is unimplemented the error carries the offending word.
In addition, any decode error the dispatch ever returns comes with the entry
state unchanged. -/
theorem c8_unknown_combo_recoverable (ir : Nat) (c : Cpu) (h : unknownCombo ir) :
    c.do_mnemonic ir = (c, some (decodeFailure ir)) ∧
    (decodeFailure ir).isDecodeFailure = true ∧
    (unimplementedOpcode (ir &&& 0x7F) → decodeFailure ir = .unknownInstruction ir) ∧
    (∀ e, (c.do_mnemonic ir).2 = some e → e.isDecodeFailure = true →
      (c.do_mnemonic ir).1 = c) := by
  refine ⟨?_, ?_, fun hu => decodeFailure_unimpl ir hu, do_mnemonic_dsafe c ir⟩
  all_goals
    rcases h with hu | ⟨hop, h0, h1, h2, h4, h5⟩ | ⟨hop, h0, h1, h2⟩ |
      ⟨hop, h0, h1, h4, h5, h6, h7⟩ | ⟨hop, h0, h1⟩ |
      ⟨hop, g2, g3, g1, g0, g4, g12, g8, g16, g20, g24, g28⟩ | ⟨hop, hf⟩ |
      ⟨hop, hA, hB, hC⟩ | ⟨hop, h1, h2, h3, h5, h6, h7⟩
  · rw [dm_unknown_opcode c ir hu, decodeFailure_unimpl ir hu]
  · rw [dm_opcode_load c ir hop, decodeFailure_load ir hop]
    exact load_unknown c _ h0 h1 h2 h4 h5
  · rw [dm_opcode_store c ir hop, decodeFailure_store ir hop]
    exact store_unknown c _ h0 h1 h2
  · rw [dm_opcode_branch c ir hop, decodeFailure_branch ir hop]
    exact branch_unknown c _ h0 h1 h4 h5 h6 h7
  · rw [dm_opcode_misc_mem c ir hop, decodeFailure_misc_mem ir hop]
    exact misc_mem_unknown c _ h0 h1
  · rw [dm_opcode_amo c ir hop, decodeFailure_amo ir hop]
    exact amo_unknown c _ g2 g3 g1 g0 g4 g12 g8 g16 g20 g24 g28
  · rw [dm_opcode_opimm c ir hop, decodeFailure_opimm ir hop]
    exact opimm_unknown c _ hf
  · rw [dm_opcode_op c ir hop, decodeFailure_op ir hop]
    exact op_unknown c _ hA hB hC
  · rw [dm_opcode_system c ir hop, decodeFailure_system ir hop]
    exact system_unknown c _ h1 h2 h3 h5 h6 h7
  · rw [decodeFailure_unimpl ir hu]
    rfl
  · rw [decodeFailure_load ir hop]
    rfl
  · rw [decodeFailure_store ir hop]
    rfl
  · rw [decodeFailure_branch ir hop]
    rfl
  · rw [decodeFailure_misc_mem ir hop]
    rfl
  · rw [decodeFailure_amo ir hop]
    rfl
  · rw [decodeFailure_opimm ir hop]
    rfl
  · rw [decodeFailure_op ir hop]
    rfl
  · rw [decodeFailure_system ir hop]
    rfl

/-- C8 witness: the all-ones word (the spec's unknown-opcode example) yields the
recoverable error carrying the word, and the unknown BRANCH funct3 = 010 word
0x00002063 yields a recoverable decode error, both with the state unchanged. -/
theorem c8_unknown_combo_witness :
    cpuZero.do_mnemonic 0xFFFFFFFF = (cpuZero, some (.unknownInstruction 0xFFFFFFFF)) ∧
    cpuZero.do_mnemonic 0x00002063 =
      (cpuZero, some (.unknownBranch (Inst.from_b 0x00002063))) ∧
    (Failure.unknownBranch (Inst.from_b 0x00002063)).isDecodeFailure = true := by
  obtain ⟨e1, d1, u1, s1⟩ := c8_unknown_combo_recoverable 0xFFFFFFFF cpuZero
    (Or.inl (by unfold unimplementedOpcode opcodeOf; decide))
  obtain ⟨e2, d2, u2, s2⟩ := c8_unknown_combo_recoverable 0x00002063 cpuZero
    (Or.inr (Or.inr (Or.inr (Or.inl (by unfold opcodeOf funct3Of; decide)))))
  have hq1 : decodeFailure 0xFFFFFFFF = .unknownInstruction 0xFFFFFFFF :=
    u1 (by unfold unimplementedOpcode; decide)
  have hq2 : decodeFailure 0x00002063 = .unknownBranch (Inst.from_b 0x00002063) := rfl
  rw [hq1] at e1
  rw [hq2] at e2 d2
  exact ⟨e1, e2, d2⟩

/-- C9: register 0 is hardwired to zero at the register-file interface: reading
index 0 returns 0 in every state, also immediately after a write to index 0. -/
theorem c9_x0_hardwired_zero (c : Cpu) (v : Nat) :
    c.get_x 0 = 0 ∧ (c.set_x 0 v).get_x 0 = 0 :=
  ⟨rfl, rfl⟩

/-- C10: shift execution is not total. With a shift-amount operand of 32 the
register shifts SLL/SRL/SRA perform an overflowing Rust shift (a panic); the
handler reached by the source's SRAI pattern (funct7 0b0010000, word
0x2000D093) shifts by the raw immediate 512 and panics; and the standard SRAI
encoding (funct7 0b0100000, word 0x4000D093) does not decode at all. -/
theorem c10_unmasked_shift_panics :
    (cpuShift.sll 3 1 2).2 = some .panicShiftOverflow ∧
    (cpuShift.srl 3 1 2).2 = some .panicShiftOverflow ∧
    (cpuShift.sra 3 1 2).2 = some .panicShiftOverflow ∧
    (cpuShift.do_mnemonic 0x2000D093).2 = some .panicShiftOverflow ∧
    (cpuShift.do_mnemonic 0x4000D093).2 = some (.unknownOpImm (Inst.from_i 0x4000D093)) :=
  ⟨rfl, rfl, rfl, rfl, rfl⟩

end RiscV
